import Mathlib

/-!
Go-Expert: deadline-bounded request orchestration

A shallow embedding of the four programs of the repository

* `desafio1/server` (rate lookup with a persistence write),
* `desafio2` (fan-out race between two postal-code providers),
* `OTEL/service-a` and `OTEL/service-b` (two-hop postal-code / weather chain),

and the theorems that settle the specification's claims about them.

Everything that the Go code obtains from outside the process (an HTTP
exchange, a JSON decode, a database write, an environment variable) is an
explicit input of the embedded function; everything it does to the outside
(the HTTP reply, outbound calls, spans) is part of the value it returns.
-/

namespace Go

/-! ## Go `error` values -/

/-- The dynamic values an `error` interface holds in these programs.
`deadlineExceeded` and `canceled` are the sentinels `context.DeadlineExceeded`
and `context.Canceled`; `urlError` is a `*url.Error` (what every error of
`http.Client.Do` is); `errorString` is what `fmt.Errorf` without `%w` and
`errors.New` build; `other` is any further error type, given by its type
name and message. -/
inductive GoError where
  | deadlineExceeded
  | canceled
  | urlError (op url : String) (err : GoError)
  | errorString (msg : String)
  | other (typeName msg : String)
  deriving DecidableEq, Repr

namespace GoError

/-- The digit of `n` in lower-case hexadecimal, for `n < 16`. -/
def hexDigit (n : Nat) : Char :=
  if n < 10 then Char.ofNat (48 + n) else Char.ofNat (87 + n)

/-- How `strconv.Quote` writes one rune inside the quotes: the quote and the
backslash are escaped, the control characters have their letter or `\x`
escape, the runes `U+0080` to `U+009F` their `\u` escape, every other rune is
written as it is. For runes from `U+00A0` on the table of printable runes of
package `unicode` is not modelled. -/
def quoteRune (c : Char) : String :=
  let n := c.toNat
  if n = 34 then "\\\""
  else if n = 92 then "\\\\"
  else if n = 7 then "\\a"
  else if n = 8 then "\\b"
  else if n = 12 then "\\f"
  else if n = 10 then "\\n"
  else if n = 13 then "\\r"
  else if n = 9 then "\\t"
  else if n = 11 then "\\v"
  else if n < 32 || n = 127 then
    "\\x" ++ String.singleton (hexDigit (n / 16)) ++ String.singleton (hexDigit (n % 16))
  else if 128 ≤ n && n < 160 then
    "\\u00" ++ String.singleton (hexDigit (n / 16)) ++ String.singleton (hexDigit (n % 16))
  else String.singleton c

/-- The function `strconv.Quote`. -/
def Quote (s : String) : String :=
  "\"" ++ String.join (s.data.map quoteRune) ++ "\""

/-- The method `Error()`. For `*url.Error` it is
`fmt.Sprintf("%s %q: %s", e.Op, e.URL, e.Err)`. -/
def Error : GoError → String
  | deadlineExceeded => "context deadline exceeded"
  | canceled => "context canceled"
  | urlError op url err => op ++ " " ++ Quote url ++ ": " ++ Error err
  | errorString msg => msg
  | other _ msg => msg

/-- The Go expression `err == context.DeadlineExceeded` on interface values:
true only when the dynamic type and value of `err` are those of the sentinel.
A `*url.Error` wrapping the sentinel has another dynamic type. -/
def eqDeadlineExceeded : GoError → Bool
  | deadlineExceeded => true
  | _ => false

/-- The call `errors.Is(err, context.DeadlineExceeded)`: follows `Unwrap`. -/
def isDeadlineExceeded : GoError → Bool
  | deadlineExceeded => true
  | urlError _ _ err => isDeadlineExceeded err
  | _ => false

end GoError

/-! ## Package `regexp`, the fragment used by `isValidCEP` -/

/-- The operators of `regexp/syntax` that the pattern of `isValidCEP` parses to. -/
inductive Regexp where
  | OpEmptyMatch
  | OpLiteral (c : Char)
  | OpCharClass (ranges : List (Char × Char))
  | OpBeginText
  | OpEndText
  | OpConcat (a b : Regexp)
  | OpRepeat (n : Nat) (sub : Regexp)
  deriving DecidableEq, Repr

namespace Regexp

/-- The Perl class `\d`: in RE2 syntax it is the ASCII range `0-9` only. -/
def perlDigit : Regexp := OpCharClass [('0', '9')]

/-- State of the pattern reader: between atoms, or inside a `{n}` counter. -/
inductive ParseState where
  | atom
  | count (n : Nat)

/-- Characters that have a meaning of their own in a pattern and are outside
the fragment read here. -/
def isMeta (c : Char) : Bool :=
  c = '\\' || c = '.' || c = '+' || c = '*' || c = '?' || c = '(' || c = ')' ||
  c = '|' || c = '[' || c = ']' || c = Char.ofNat 123 || c = Char.ofNat 125 ||
  c = '^' || c = '$'

/-- Reads a pattern left to right, keeping the atoms read so far (latest
first). Without the flag `m`, `^` is `OpBeginText` and `$` is `OpEndText`;
`\d` is the Perl digit class; `{n}` repeats the atom before it exactly `n`
times. Any other construct is outside the fragment and gives `none`. -/
def parseLoop : List Char → ParseState → List Regexp → Option (List Regexp)
  | [], .atom, acc => some acc.reverse
  | [], .count _, _ => none
  | c :: rest, .count n, acc =>
    if c = Char.ofNat 125 then
      match acc with
      | a :: acc1 => parseLoop rest .atom (OpRepeat n a :: acc1)
      | [] => none
    else if c.isDigit then parseLoop rest (.count (10 * n + (c.toNat - 48))) acc
    else none
  | c :: rest, .atom, acc =>
    if c = '^' then parseLoop rest .atom (OpBeginText :: acc)
    else if c = '$' then parseLoop rest .atom (OpEndText :: acc)
    else if c = Char.ofNat 123 then parseLoop rest (.count 0) acc
    else if c = '\\' then
      match rest with
      | 'd' :: rest1 => parseLoop rest1 .atom (perlDigit :: acc)
      | _ => none
    else if isMeta c then none
    else parseLoop rest .atom (OpLiteral c :: acc)

/-- Concatenation of a list of atoms. -/
def concatAll : List Regexp → Regexp
  | [] => OpEmptyMatch
  | [a] => a
  | a :: rest => OpConcat a (concatAll rest)

/-- The call `syntax.Parse(pattern, syntax.Perl)` on the fragment. -/
def parse (pattern : String) : Option Regexp :=
  (parseLoop pattern.data .atom []).map concatAll

/-- Applies `step` to every position of `ps`, `n` times in a row. -/
def iterate (step : Nat → List Nat) : Nat → List Nat → List Nat
  | 0, ps => ps
  | n + 1, ps => iterate step n (ps.flatMap step)

/-- The positions at which a match of the expression that starts at position
`p` of `input` can end. Positions count runes: the package reads a string as
the runes its bytes decode to, one `U+FFFD` for each byte that is not valid
UTF-8, and that is not a digit. -/
def matchAt : Regexp → List Char → Nat → List Nat
  | OpEmptyMatch, _, p => [p]
  | OpLiteral c, input, p => if input.get? p = some c then [p + 1] else []
  | OpCharClass ranges, input, p =>
    match input.get? p with
    | some c => if ranges.any (fun r => r.1 ≤ c && c ≤ r.2) then [p + 1] else []
    | none => []
  | OpBeginText, _, p => if p = 0 then [p] else []
  | OpEndText, input, p => if p = input.length then [p] else []
  | OpConcat a b, input, p => (matchAt a input p).flatMap (fun q => matchAt b input q)
  | OpRepeat n sub, input, p => iterate (fun q => matchAt sub input q) n [p]

/-- The method `(*Regexp).MatchString`: whether the string contains any match,
starting anywhere. -/
def matchString (re : Regexp) (s : String) : Bool :=
  (List.range (s.length + 1)).any (fun p => !(matchAt re s.data p).isEmpty)

/-- The function `regexp.MatchString(pattern, s)`: compiles the pattern and
reports a match; a pattern that does not compile gives `false` and an error. -/
def MatchString (pattern : String) (s : String) : Bool × Option GoError :=
  match parse pattern with
  | some re => (matchString re s, none)
  | none => (false, some (.other "*syntax.Error" "error parsing regexp"))

/-- Whether position `p` of `input` holds an ASCII decimal digit. -/
def digitAt (input : List Char) (p : Nat) : Bool :=
  match input.get? p with
  | some c => decide ('0' ≤ c) && decide (c ≤ '9')
  | none => false

end Regexp

end Go

namespace OTEL.ServiceA

/-- The function `isValidCEP` of `OTEL/service-a/main.go`. -/
def isValidCEP (cep : String) : Bool :=
  (Go.Regexp.MatchString "^\\d{8}$" cep).1

end OTEL.ServiceA

namespace OTEL.ServiceB

/-- The function `isValidCEP` of `OTEL/service-b/main.go`. -/
def isValidCEP (cep : String) : Bool :=
  (Go.Regexp.MatchString "^\\d{8}$" cep).1

end OTEL.ServiceB


namespace Go

/-! ## The type `float64` -/

/-- A value of type `float64` (IEEE 754 binary64): `finite neg m e` is
`(-1)^neg · m · 2^e`. The results of the operations below are in the form the
format stores: `e = -1074` with `m < 2^52` (zero and subnormal), or
`2^52 ≤ m < 2^53` with `-1074 ≤ e ≤ 971`. -/
inductive Float64 where
  | finite (neg : Bool) (m : Nat) (e : Int)
  | inf (neg : Bool)
  | nan
  deriving DecidableEq, Repr

namespace Float64

/-- Exponent of the least significant bit of a subnormal number. -/
def minExp : Int := -1074

/-- Exponent of the least significant bit of the largest finite number. -/
def maxExp : Int := 971

/-- Halves `n` until it is zero, at most `fuel` times, and counts the steps. -/
def bitLengthAux : Nat → Nat → Nat
  | 0, _ => 0
  | fuel + 1, n => if n = 0 then 0 else bitLengthAux fuel (n / 2) + 1

/-- The number of binary digits of `n`: the least `k` with `n < 2^k`. -/
def bitLength (n : Nat) : Nat := bitLengthAux n n

/-- The integer nearest to `m / 2^sh`, ties going to the even one. -/
def roundShift (m sh : Nat) : Nat :=
  let q := m / 2 ^ sh
  let r := m % 2 ^ sh
  if 2 ^ sh < 2 * r ∨ (2 * r = 2 ^ sh ∧ q % 2 = 1) then q + 1 else q

/-- The exponent of the unit in the last place of the `float64` numbers
around the non-zero magnitude `m · 2^e`: 53 significant bits, and never
below the exponent of the subnormal numbers. -/
def ulpExp (m : Nat) (e : Int) : Int :=
  max (e + (bitLength m : Int) - 53) minExp

/-- The magnitude `m · 2^e` in units of `2^ulp`, rounded to the nearest
integer, ties to even; exact when `ulp ≤ e`. -/
def scaleTo (m : Nat) (e ulp : Int) : Nat :=
  if ulp ≤ e then m * 2 ^ (e - ulp).toNat else roundShift m (ulp - e).toNat

/-- The `float64` with significand `q` in units of `2^ulp`: a significand
that rounding has carried to `2^53` moves to the next exponent, and an
exponent above `maxExp` is an overflow to infinity. -/
def pack (neg : Bool) (q : Nat) (ulp : Int) : Float64 :=
  if q = 2 ^ 53 then
    if maxExp < ulp + 1 then inf neg else finite neg (2 ^ 52) (ulp + 1)
  else
    if maxExp < ulp then inf neg else finite neg q ulp

/-- Rounding of the exact value `(-1)^neg · m · 2^e` to `float64`, mode
round-to-nearest-even, with gradual underflow and overflow to infinity. -/
def round (neg : Bool) (m : Nat) (e : Int) : Float64 :=
  if m = 0 then finite neg 0 minExp
  else pack neg (scaleTo m e (ulpExp m e)) (ulpExp m e)

/-- Rounding of an exact signed sum `v · 2^e` whose terms had the signs `s1`
and `s2`: an exact zero is `-0` only when both terms were negative. -/
def roundSum (s1 s2 : Bool) (v : Int) (e : Int) : Float64 :=
  if v = 0 then finite (s1 && s2) 0 minExp
  else round (decide (v < 0)) v.natAbs e

/-- The signed integer `(-1)^neg · m · 2^k`. -/
def signedScaled (neg : Bool) (m : Nat) (k : Nat) : Int :=
  if neg then -((m * 2 ^ k : Nat) : Int) else ((m * 2 ^ k : Nat) : Int)

/-- The Go operator `+` on `float64`. -/
def add : Float64 → Float64 → Float64
  | finite s1 m1 e1, finite s2 m2 e2 =>
    let e := min e1 e2
    roundSum s1 s2 (signedScaled s1 m1 (e1 - e).toNat + signedScaled s2 m2 (e2 - e).toNat) e
  | nan, _ => nan
  | _, nan => nan
  | inf s1, inf s2 => if s1 = s2 then inf s1 else nan
  | inf s1, finite _ _ _ => inf s1
  | finite _ _ _, inf s2 => inf s2

/-- The Go operator `*` on `float64`. -/
def mul : Float64 → Float64 → Float64
  | finite s1 m1 e1, finite s2 m2 e2 => round (s1 != s2) (m1 * m2) (e1 + e2)
  | nan, _ => nan
  | _, nan => nan
  | inf s1, inf s2 => inf (s1 != s2)
  | inf s1, finite s2 m _ => if m = 0 then nan else inf (s1 != s2)
  | finite s1 m _, inf s2 => if m = 0 then nan else inf (s1 != s2)

/-- The fused multiply-add `x*y + z` with a single rounding, which the Go
specification lets a compiler emit for the expression `x*y + z`. -/
def fma : Float64 → Float64 → Float64 → Float64
  | finite s1 m1 e1, finite s2 m2 e2, finite s3 m3 e3 =>
    let e := min (e1 + e2) e3
    roundSum (s1 != s2) s3
      (signedScaled (s1 != s2) (m1 * m2) (e1 + e2 - e).toNat + signedScaled s3 m3 (e3 - e).toNat) e
  | x, y, z => add (mul x y) z

/-- Conversion of a non-negative integer constant to `float64`. -/
def ofNat (n : Nat) : Float64 := round false n 0

/-- Whether the value is neither an infinity nor a NaN. -/
def isFinite : Float64 → Bool
  | finite _ _ _ => true
  | _ => false

/-- Whether the value is in the form the format stores: an infinity, a NaN,
a zero or subnormal number (`e = -1074`, `m < 2^52`), or a normal number
(`2^52 ≤ m < 2^53`, `-1074 ≤ e ≤ 971`). -/
def isStored : Float64 → Bool
  | finite _ m e =>
    decide (m < 2 ^ 53) && decide (minExp ≤ e) && decide (e ≤ maxExp) &&
      (decide (2 ^ 52 ≤ m) || decide (e = minExp))
  | _ => true

/-- The rational number a finite value stands for. -/
def toRat : Float64 → Option ℚ
  | finite neg m e => some ((if neg then -1 else 1) * (m : ℚ) * (2 : ℚ) ^ e)
  | _ => none

/-- The constant `1.8` converted to `float64`: `0x1.ccccccccccccdp+0`. -/
def const1_8 : Float64 := finite false 8106479329266893 (-52)

/-- The largest finite value, `math.MaxFloat64`. -/
def maxFloat64 : Float64 := finite false (2 ^ 53 - 1) 971

end Float64

end Go

namespace Go

/-! ## Packages `context` and `net/http` -/

/-- A `context.Context`, by the two ways it can end. Times are milliseconds
counted from the moment the bounded call starts. -/
structure Context where
  /-- The deadline, when the context has one -/
  deadline : Option Nat
  /-- The time at which the owner cancels the context, when it does -/
  canceledAt : Option Nat
  deriving DecidableEq, Repr

namespace Context

/-- The context `context.Background()`: never done. -/
def Background : Context := { deadline := none, canceledAt := none }

/-- The call `context.WithTimeout(parent, timeout)`: the deadline of the child
is the earlier of `now + timeout` and the deadline of the parent. -/
def WithTimeout (parent : Context) (timeout : Nat) : Context :=
  { parent with
    deadline := match parent.deadline with
      | none => some timeout
      | some d => some (min d timeout) }

/-- When the channel `ctx.Done()` closes and what `ctx.Err()` is from then on. -/
def done (ctx : Context) : Option (Nat × GoError) :=
  match ctx.deadline, ctx.canceledAt with
  | none, none => none
  | some d, none => some (d, .deadlineExceeded)
  | none, some c => some (c, .canceled)
  | some d, some c => if c < d then some (c, .canceled) else some (d, .deadlineExceeded)

end Context

/-- One outbound HTTP exchange as the transport would complete it were it
never interrupted: after `headersAt` milliseconds it has the response (status
line and headers) or a transport error. -/
structure Exchange (ρ : Type) where
  headersAt : Nat
  result : Except GoError ρ

/-- The function `urlErrorOp` of `net/http`, on the methods used here. -/
def urlErrorOp (method : String) : String :=
  if method = "GET" then "Get" else if method = "POST" then "Post" else method

/-- The method `(*http.Client).Do` for a request built with
`http.NewRequestWithContext(ctx, method, url, _)`. Any error it returns is a
`*url.Error`; when the context is done before the response arrives, the error
wrapped is `ctx.Err()`. -/
def clientDo {ρ : Type} (ctx : Context) (method url : String) (ex : Exchange ρ) :
    Except GoError ρ :=
  let wrap : GoError → GoError := GoError.urlError (urlErrorOp method) url
  match ctx.done with
  | some (t, err) =>
    if t ≤ ex.headersAt then .error (wrap err)
    else match ex.result with
      | .error e => .error (wrap e)
      | .ok r => .ok r
  | none =>
    match ex.result with
    | .error e => .error (wrap e)
    | .ok r => .ok r

/-- What a handler has written to its `http.ResponseWriter`. -/
structure Reply (β : Type) where
  status : Nat
  contentType : String
  body : β
  deriving DecidableEq, Repr

def StatusOK : Nat := 200
def StatusBadRequest : Nat := 400
def StatusNotFound : Nat := 404
def StatusRequestTimeout : Nat := 408
def StatusUnprocessableEntity : Nat := 422
def StatusInternalServerError : Nat := 500

end Go

/-! # `desafio1/server/main.go` -/

namespace Desafio1.Server

open Go

def URL : String := "https://economia.awesomeapi.com.br/json/last/USD-BRL"

structure Cotacao where
  Bid : String
  deriving DecidableEq, Repr

structure APIResponse where
  USDBRL : Cotacao
  deriving DecidableEq, Repr

/-- The bytes a handler of this server writes as the body. -/
inductive Body where
  /-- The text of `http.Error`, which ends in a newline -/
  | text (s : String)
  /-- The encoding `json.NewEncoder(w).Encode` gives a `map[string]string` -/
  | jsonMap (m : List (String × String))
  deriving DecidableEq, Repr

/-- The function `http.Error(w, msg, code)`. -/
def httpError (msg : String) (code : Nat) : Reply Body :=
  { status := code, contentType := "text/plain; charset=utf-8", body := .text (msg ++ "\n") }

/-- The response of the rate provider once its headers are in. -/
structure RateResponse where
  /-- Outcome of `io.ReadAll(res.Body)` -/
  readAll : Except GoError String

/-- What the rate provider and the libraries do during one request. -/
structure Upstream where
  /-- Error of `http.NewRequestWithContext`, if any -/
  newRequestErr : Option GoError
  /-- The exchange with the provider -/
  exchange : Exchange RateResponse
  /-- The call `json.Unmarshal(body, &apiResponse)` -/
  unmarshal : String → Except GoError APIResponse

/-- What the database does during one request. -/
structure Database where
  /-- Error of `sql.Open`, if any -/
  openErr : Option GoError
  /-- What `db.ExecContext(ctx, ...)` returns under the 10ms context: no
  error, the error of the context, or an error of the driver -/
  execErr : Option GoError

/-- The inbound request: its context `r.Context()`. -/
structure Request where
  ctx : Context

/-- The function `BuscarCotacaoAPI`. -/
def BuscarCotacaoAPI (ctx : Context) (up : Upstream) : Except GoError Cotacao :=
  match up.newRequestErr with
  | some err => .error err
  | none =>
    match clientDo ctx "GET" URL up.exchange with
    | .error err => .error err
    | .ok res =>
      match res.readAll with
      | .error err => .error err
      | .ok body =>
        match up.unmarshal body with
        | .error err => .error err
        | .ok apiResponse => .ok apiResponse.USDBRL

/-- The function `InserirDB`. What `db.ExecContext` returns under its context
is the database's to say: it is an input, whichever way the driver treats a
context that is done. -/
def InserirDB (_ctx : Context) (_bid : String) (db : Database) : Option GoError :=
  match db.openErr with
  | some err => some err
  | none =>
    match db.execErr with
    | some err => some err
    | none => none

/-- What one run of the handler leaves behind. -/
structure Outcome where
  /-- Lines printed with `fmt.Println` and `fmt.Printf` -/
  stdout : List String
  /-- The HTTP reply -/
  reply : Reply Body
  deriving DecidableEq, Repr

/-- The handler `ConsultarCotacao`. -/
def ConsultarCotacao (r : Request) (up : Upstream) (db : Database) : Outcome :=
  let ctxAPI := Context.WithTimeout r.ctx 200
  match BuscarCotacaoAPI ctxAPI up with
  | .error err =>
    if err.eqDeadlineExceeded then
      { stdout := ["Erro: Timeout ao buscar cotação da API (200ms)"],
        reply := httpError "Timeout ao buscar cotação da API" StatusRequestTimeout }
    else
      { stdout := ["Erro ao buscar cotação: " ++ err.Error],
        reply := httpError "Erro ao buscar cotação" StatusInternalServerError }
  | .ok cotacao =>
    let ctxDB := Context.WithTimeout Context.Background 10
    let stdout :=
      match InserirDB ctxDB cotacao.Bid db with
      | some err =>
        if err.eqDeadlineExceeded then ["Erro: Timeout ao salvar no banco de dados (10ms)"]
        else ["Erro ao salvar no banco de dados: " ++ err.Error]
      | none => []
    let responseMap := [("bid", cotacao.Bid)]
    { stdout := stdout,
      reply := { status := StatusOK, contentType := "application/json", body := .jsonMap responseMap } }

/-- The run of the end-to-end example: the provider answers after 250ms with
a body that decodes to the bid `5.4321`. -/
def slowUpstream : Upstream :=
  { newRequestErr := none,
    exchange := { headersAt := 250, result := .ok { readAll := .ok "USDBRL bid 5.4321" } },
    unmarshal := fun _ => .ok { USDBRL := { Bid := "5.4321" } } }

/-- The same provider answering after 50ms. -/
def fastUpstream : Upstream :=
  { slowUpstream with exchange := { slowUpstream.exchange with headersAt := 50 } }

/-- A database whose insert succeeds within the budget. -/
def quickDatabase : Database := { openErr := none, execErr := none }

/-- A database whose insert is given up at the 10ms deadline:
`db.ExecContext` returns `context.DeadlineExceeded`. -/
def slowDatabase : Database := { openErr := none, execErr := some .deadlineExceeded }

/-- A database locked by another writer: `db.ExecContext` returns the error
of the driver. -/
def lockedDatabase : Database :=
  { openErr := none, execErr := some (.other "sqlite3.Error" "database is locked") }

/-- An inbound request whose context has no deadline and is never cancelled. -/
def plainRequest : Request := { ctx := Context.Background }

end Desafio1.Server

/-! # `desafio2/main.go` -/

namespace Desafio2

open Go

structure BrasilAPIResponse where
  CEP : String
  Estado : String
  Cidade : String
  Bairro : String
  Logradouro : String
  Servico : String
  deriving DecidableEq, Repr

structure ViaCEPResponse where
  CEP : String
  Logradouro : String
  Complemento : String
  Bairro : String
  Localidade : String
  UF : String
  Erro : Bool
  deriving DecidableEq, Repr

/-- What one provider and the libraries do during the run of its goroutine. -/
structure ProviderRun (ρ : Type) where
  /-- Outcome of `http.Get(url)`, an error or a response -/
  httpGet : Except GoError Unit
  /-- Outcome of `io.ReadAll(res.Body)` -/
  readAll : Except GoError String
  /-- The call `json.Unmarshal(body, &data)` -/
  unmarshal : String → Except GoError ρ
  /-- Milliseconds after `main` enters its `select` at which the goroutine
  reaches its last statement, the send on its channel or a `return` -/
  doneAt : Nat

/-- What a provider goroutine does: the lines it prints, and the value it
sends on its channel at time `doneAt`, if it sends one. -/
structure Goroutine where
  stdout : List String
  send : Option String
  doneAt : Nat
  deriving DecidableEq, Repr

/-- The format `"CEP: %s\nLogradouro: %s\nBairro: %s\nCidade: %s\nEstado: %s"`. -/
def formatResultado (cep logradouro bairro cidade estado : String) : String :=
  "CEP: " ++ cep ++ "\nLogradouro: " ++ logradouro ++ "\nBairro: " ++ bairro ++
    "\nCidade: " ++ cidade ++ "\nEstado: " ++ estado

/-- The function `buscaBrasilAPI`. -/
def buscaBrasilAPI (_cep : String) (run : ProviderRun BrasilAPIResponse) : Goroutine :=
  match run.httpGet with
  | .error err =>
    { stdout := ["BrasilAPI - Erro HTTP: " ++ err.Error], send := none, doneAt := run.doneAt }
  | .ok _ =>
    match run.readAll with
    | .error err =>
      { stdout := ["BrasilAPI - Erro ao ler corpo: " ++ err.Error], send := none,
        doneAt := run.doneAt }
    | .ok body =>
      match run.unmarshal body with
      | .error err =>
        { stdout := ["BrasilAPI - Erro ao decodificar JSON: " ++ err.Error], send := none,
          doneAt := run.doneAt }
      | .ok data =>
        if data.CEP = "" then
          { stdout := ["BrasilAPI - CEP não encontrado"], send := none, doneAt := run.doneAt }
        else
          let resultado :=
            formatResultado data.CEP data.Logradouro data.Bairro data.Cidade data.Estado
          { stdout := [], send := some resultado, doneAt := run.doneAt }

/-- The function `buscaViaCEP`. -/
def buscaViaCEP (_cep : String) (run : ProviderRun ViaCEPResponse) : Goroutine :=
  match run.httpGet with
  | .error err =>
    { stdout := ["ViaCEP - Erro HTTP: " ++ err.Error], send := none, doneAt := run.doneAt }
  | .ok _ =>
    match run.readAll with
    | .error err =>
      { stdout := ["ViaCEP - Erro ao ler corpo: " ++ err.Error], send := none,
        doneAt := run.doneAt }
    | .ok body =>
      match run.unmarshal body with
      | .error err =>
        { stdout := ["ViaCEP - Erro ao decodificar JSON: " ++ err.Error], send := none,
          doneAt := run.doneAt }
      | .ok data =>
        if data.Erro then
          { stdout := ["ViaCEP - CEP não encontrado (erro: true)"], send := none,
            doneAt := run.doneAt }
        else
          let resultado :=
            formatResultado data.CEP data.Logradouro data.Bairro data.Localidade data.UF
          { stdout := [], send := some resultado, doneAt := run.doneAt }

/-- The branch of the `select` of `main` that runs. -/
inductive Branch where
  /-- The case `resultado := <-chBrasilAPI` -/
  | brasilAPI (resultado : String)
  /-- The case `resultado := <-chViaCEP` -/
  | viaCEP (resultado : String)
  /-- The case `<-time.After(1 * time.Second)` -/
  | timeout
  deriving DecidableEq, Repr

namespace Branch

/-- The lines `main` prints in the branch. -/
def stdout : Branch → List String
  | brasilAPI resultado => ["API: BrasilAPI (Venceu!)", resultado]
  | viaCEP resultado => ["API: ViaCEP (Venceu!)", resultado]
  | timeout => ["Erro: Timeout de 1 segundo atingido."]

/-- The provider results the branch surfaces. -/
def surfaced : Branch → List String
  | brasilAPI resultado => [resultado]
  | viaCEP resultado => [resultado]
  | timeout => []

end Branch

/-- The bound `1 * time.Second` of the race, in milliseconds. -/
def raceBound : Nat := 1000

/-- The cases of the `select` with the time at which each becomes ready: a
receive is ready when the goroutine sends, the timer case at `raceBound`. -/
def selectCases (b v : Goroutine) : List (Nat × Branch) :=
  (match b.send with
    | some resultado => [(b.doneAt, Branch.brasilAPI resultado)]
    | none => []) ++
  (match v.send with
    | some resultado => [(v.doneAt, Branch.viaCEP resultado)]
    | none => []) ++
  [(raceBound, Branch.timeout)]

/-- The `select` statement: it blocks until the earliest time at which a case
is ready and runs a case that is ready then. When several are ready at that
time the choice is not determined, so the result lists every branch that can
run. -/
def select (cases : List (Nat × Branch)) : List Branch :=
  match (cases.map Prod.fst).min? with
  | some t => (cases.filter (fun c => c.1 = t)).map Prod.snd
  | none => []

/-- The constant `cep` of `main`. -/
def cep : String := "52020-060"

/-- The function `main`: the branches its `select` can take. -/
def main (runB : ProviderRun BrasilAPIResponse) (runV : ProviderRun ViaCEPResponse) :
    List Branch :=
  select (selectCases (buscaBrasilAPI cep runB) (buscaViaCEP cep runV))

/-- The ways a provider fails: an HTTP error, a body read error, a JSON
decode error, or a decoded answer that carries the not-found marker. -/
def ProviderRun.fails {ρ : Type} (notFound : ρ → Bool) (run : ProviderRun ρ) : Bool :=
  match run.httpGet with
  | .error _ => true
  | .ok _ =>
    match run.readAll with
    | .error _ => true
    | .ok body =>
      match run.unmarshal body with
      | .error _ => true
      | .ok data => notFound data

/-- The not-found marker of `buscaBrasilAPI`: an empty `cep`. -/
def brasilAPINotFound (data : BrasilAPIResponse) : Bool := data.CEP = ""

/-- The not-found marker of `buscaViaCEP`: the field `erro`. -/
def viaCEPNotFound (data : ViaCEPResponse) : Bool := data.Erro

/-- A BrasilAPI run that succeeds at time `t` with the postal code written
as `code`. -/
def brasilAPIAnswers (code : String) (t : Nat) : ProviderRun BrasilAPIResponse :=
  { httpGet := .ok (), readAll := .ok "brasilapi body",
    unmarshal := fun _ => .ok
      { CEP := code, Estado := "PE", Cidade := "Recife", Bairro := "Espinheiro",
        Logradouro := "Rua da Hora", Servico := "open-cep" },
    doneAt := t }

/-- A ViaCEP run that succeeds at time `t` with the postal code written as
`code`. -/
def viaCEPAnswers (code : String) (t : Nat) : ProviderRun ViaCEPResponse :=
  { httpGet := .ok (), readAll := .ok "viacep body",
    unmarshal := fun _ => .ok
      { CEP := code, Logradouro := "Rua da Hora", Complemento := "",
        Bairro := "Espinheiro", Localidade := "Recife", UF := "PE", Erro := false },
    doneAt := t }

/-- A BrasilAPI run whose `http.Get` fails at time `t`. -/
def brasilAPIDown (t : Nat) : ProviderRun BrasilAPIResponse :=
  { brasilAPIAnswers "52020060" t with
    httpGet := .error (.urlError "Get" "https://brasilapi.com.br/api/cep/v1/52020-060"
      (.other "*net.OpError" "dial tcp: connection refused")) }

/-- A ViaCEP run that answers `{"erro": true}` at time `t`. -/
def viaCEPUnknown (t : Nat) : ProviderRun ViaCEPResponse :=
  { viaCEPAnswers "52020-060" t with
    unmarshal := fun _ => .ok
      { CEP := "", Logradouro := "", Complemento := "", Bairro := "", Localidade := "",
        UF := "", Erro := true } }

end Desafio2

/-! # `OTEL/service-a/main.go` -/

namespace OTEL.ServiceA

open Go

structure CepRequest where
  Cep : String
  deriving DecidableEq, Repr

/-- A response of the downstream hop as `client.Do` returns it. -/
structure HttpResponse where
  StatusCode : Nat
  /-- The value `resp.Header.Get("Content-Type")` -/
  ContentType : String
  /-- The bytes of `resp.Body` -/
  Body : String
  deriving DecidableEq, Repr

/-- An outbound call of the handler. -/
inductive Call where
  /-- The call `client.Do(req)` for a request with this method, URL, content
  type and JSON object as body -/
  | httpDo (method url contentType : String) (body : List (String × String))
  deriving DecidableEq, Repr

/-- What the surroundings of the handler do during one request. -/
structure Env where
  /-- The call `json.NewDecoder(r.Body).Decode(&reqBody)` on the request body -/
  decodeBody : String → Except GoError CepRequest
  /-- The value `os.Getenv("SERVICE_B_URL")` -/
  SERVICE_B_URL : String
  /-- Error of `http.NewRequestWithContext` for a URL, if any -/
  newRequestErr : String → Option GoError
  /-- Outcome of `client.Do(req)` for a URL and a body -/
  clientDo : String → List (String × String) → Except GoError HttpResponse

/-- What one run of the handler leaves behind. -/
structure Outcome where
  /-- The outbound calls, in order -/
  calls : List Call
  /-- The HTTP reply; the body is the bytes written -/
  reply : Reply String
  deriving DecidableEq, Repr

/-- The function `http.Error(w, msg, code)`. -/
def httpError (msg : String) (code : Nat) : Reply String :=
  { status := code, contentType := "text/plain; charset=utf-8", body := msg ++ "\n" }

/-- The handler `HandleCEPRequest`. -/
def HandleCEPRequest (env : Env) (requestBody : String) : Outcome :=
  match env.decodeBody requestBody with
  | .error _ => { calls := [], reply := httpError "invalid request body" StatusBadRequest }
  | .ok reqBody =>
    if !isValidCEP reqBody.Cep then
      { calls := [], reply := httpError "invalid zipcode" StatusUnprocessableEntity }
    else
      let serviceBURL := env.SERVICE_B_URL
      let bodyBytes := [("cep", reqBody.Cep)]
      match env.newRequestErr serviceBURL with
      | some err => { calls := [], reply := httpError err.Error StatusInternalServerError }
      | none =>
        let calls := [Call.httpDo "POST" serviceBURL "application/json" bodyBytes]
        match env.clientDo serviceBURL bodyBytes with
        | .error err => { calls := calls, reply := httpError err.Error StatusInternalServerError }
        | .ok resp =>
          { calls := calls,
            reply := { status := resp.StatusCode, contentType := resp.ContentType,
                       body := resp.Body } }

/-- A run in which the request body is the JSON object with the single key
`cep` set to `cep` and the downstream hop answers 200 with a weather object. -/
def scenario (cep : String) : Env :=
  { decodeBody := fun _ => .ok { Cep := cep },
    SERVICE_B_URL := "http://service-b:8081",
    newRequestErr := fun _ => none,
    clientDo := fun _ _ => .ok
      { StatusCode := 200, ContentType := "application/json", Body := "weather of Recife" } }

end OTEL.ServiceA

/-! # `OTEL/service-b/main.go` -/

namespace OTEL.ServiceB

open Go

structure ViaCEPResponse where
  Localidade : String
  deriving DecidableEq, Repr

/-- The struct `WeatherAPIResponse`; the field is `Current.TempC`. -/
structure WeatherAPIResponse where
  TempC : Float64
  deriving DecidableEq, Repr

structure WeatherResponse where
  City : String
  TempC : Float64
  TempF : Float64
  TempK : Float64
  deriving DecidableEq, Repr

/-- A response of an upstream provider as `client.Do` returns it. -/
structure HttpResponse where
  StatusCode : Nat
  /-- The bytes of `resp.Body` -/
  Body : String
  deriving DecidableEq, Repr

/-- What the handler does to the outside besides its reply, in order. -/
inductive Event where
  /-- The call `tracer.Start(ctx, name)` -/
  | spanStart (name : String)
  /-- The call `span.SetAttributes(attribute.String(key, value))` on a span -/
  | setAttribute (span key value : String)
  /-- The call `client.Do(req)` for a `GET` of the URL -/
  | httpGet (url : String)
  /-- The call `span.End()` -/
  | spanEnd (name : String)
  deriving DecidableEq, Repr

/-- What the surroundings of the handler do during one request. -/
structure Env where
  /-- The call `json.NewDecoder(r.Body).Decode(&requestBody)` on the request
  body, into a `map[string]string` -/
  decodeBody : String → Except GoError (List (String × String))
  /-- Error of `http.NewRequestWithContext` for a URL, if any -/
  newRequestErr : String → Option GoError
  /-- Outcome of `client.Do(req)` for a `GET` of the URL -/
  clientDo : String → Except GoError HttpResponse
  /-- The call `json.NewDecoder(resp.Body).Decode(&viaCEPResponse)` -/
  decodeViaCEP : String → Except GoError ViaCEPResponse
  /-- The call `json.NewDecoder(resp.Body).Decode(&weatherAPIResponse)` -/
  decodeWeather : String → Except GoError WeatherAPIResponse
  /-- The value `os.Getenv("WEATHER_API_KEY")` -/
  WEATHER_API_KEY : String
  /-- The function `url.QueryEscape` -/
  QueryEscape : String → String
  /-- Whether the compiler fuses `tempC*1.8 + 32` into one multiply-add -/
  fused : Bool

/-- The result of a stage and what it did. -/
structure Stage (α : Type) where
  events : List Event
  result : Except GoError α

/-- The bytes the handler writes as the body. -/
inductive Body where
  /-- The text of `http.Error`, which ends in a newline -/
  | text (s : String)
  /-- The encoding `json.NewEncoder(w).Encode` gives the struct -/
  | json (response : WeatherResponse)
  /-- Nothing written -/
  | empty
  deriving DecidableEq, Repr

/-- What one run of the handler leaves behind. -/
structure Outcome where
  events : List Event
  reply : Reply Body
  deriving DecidableEq, Repr

/-- The function `http.Error(w, msg, code)`. -/
def httpError (msg : String) (code : Nat) : Reply Body :=
  { status := code, contentType := "text/plain; charset=utf-8", body := .text (msg ++ "\n") }

/-- The index expression `m[key]` on a `map[string]string`: the zero value
when the key is absent. -/
def mapIndex (m : List (String × String)) (key : String) : String :=
  match m.lookup key with
  | some v => v
  | none => ""

/-- The URL `findCityByCEP` requests. -/
def viaCEPURL (cep : String) : String := "http://viacep.com.br/ws/" ++ cep ++ "/json/"

/-- The URL `getTemperatureByCity` requests. -/
def weatherURL (env : Env) (cityName : String) : String :=
  "http://api.weatherapi.com/v1/current.json?key=" ++ env.WEATHER_API_KEY ++ "&q=" ++
    env.QueryEscape cityName

/-- The function `findCityByCEP`. The deferred `span.End()` runs last on
every path. -/
def findCityByCEP (env : Env) (cep : String) : Stage String :=
  let enter := [Event.spanStart "call-viacep-api", Event.setAttribute "call-viacep-api" "cep" cep]
  let leave := [Event.spanEnd "call-viacep-api"]
  match env.newRequestErr (viaCEPURL cep) with
  | some err => { events := enter ++ leave, result := .error err }
  | none =>
    let events := enter ++ [Event.httpGet (viaCEPURL cep)] ++ leave
    match env.clientDo (viaCEPURL cep) with
    | .error err => { events := events, result := .error err }
    | .ok resp =>
      match env.decodeViaCEP resp.Body with
      | .error err => { events := events, result := .error err }
      | .ok viaCEPResponse =>
        if viaCEPResponse.Localidade = "" then
          { events := events, result := .error (.errorString "can not find zipcode") }
        else
          { events := events, result := .ok viaCEPResponse.Localidade }

/-- The function `getTemperatureByCity`. -/
def getTemperatureByCity (env : Env) (cityName : String) : Stage Float64 :=
  let enter :=
    [Event.spanStart "call-weather-api", Event.setAttribute "call-weather-api" "city" cityName]
  let leave := [Event.spanEnd "call-weather-api"]
  match env.newRequestErr (weatherURL env cityName) with
  | some err => { events := enter ++ leave, result := .error err }
  | none =>
    let events := enter ++ [Event.httpGet (weatherURL env cityName)] ++ leave
    match env.clientDo (weatherURL env cityName) with
    | .error err => { events := events, result := .error err }
    | .ok resp =>
      match env.decodeWeather resp.Body with
      | .error err => { events := events, result := .error err }
      | .ok weatherAPIResponse => { events := events, result := .ok weatherAPIResponse.TempC }

/-- The expression `tempC*1.8 + 32`. -/
def tempF (fused : Bool) (tempC : Float64) : Float64 :=
  if fused then Float64.fma tempC Float64.const1_8 (Float64.ofNat 32)
  else Float64.add (Float64.mul tempC Float64.const1_8) (Float64.ofNat 32)

/-- The expression `tempC + 273`. -/
def tempK (tempC : Float64) : Float64 :=
  Float64.add tempC (Float64.ofNat 273)

/-- The call `json.NewEncoder(w).Encode(response)`: a value with an infinity
or a NaN is an `UnsupportedValueError` and nothing is written. -/
def encode (response : WeatherResponse) : Body :=
  if response.TempC.isFinite && response.TempF.isFinite && response.TempK.isFinite then
    .json response
  else .empty

/-- The handler `HandleWeatherRequest`. -/
def HandleWeatherRequest (env : Env) (requestBody : String) : Outcome :=
  match env.decodeBody requestBody with
  | .error _ => { events := [], reply := httpError "invalid request body" StatusBadRequest }
  | .ok requestBody =>
    let cep := mapIndex requestBody "cep"
    if !isValidCEP cep then
      { events := [], reply := httpError "invalid zipcode" StatusUnprocessableEntity }
    else
      let stage1 := findCityByCEP env cep
      let events1 := [Event.spanStart "find-city-by-cep"] ++ stage1.events ++
        [Event.spanEnd "find-city-by-cep"]
      match stage1.result with
      | .error err =>
        if err.Error = "can not find zipcode" then
          { events := events1, reply := httpError "can not find zipcode" StatusNotFound }
        else
          { events := events1, reply := httpError err.Error StatusInternalServerError }
      | .ok cityName =>
        let stage2 := getTemperatureByCity env cityName
        let events2 := events1 ++ [Event.spanStart "get-temperature-by-city"] ++ stage2.events ++
          [Event.spanEnd "get-temperature-by-city"]
        match stage2.result with
        | .error err =>
          { events := events2, reply := httpError err.Error StatusInternalServerError }
        | .ok tempC =>
          let response : WeatherResponse :=
            { City := cityName, TempC := tempC, TempF := tempF env.fused tempC,
              TempK := tempK tempC }
          { events := events2,
            reply := { status := StatusOK, contentType := "application/json",
                       body := encode response } }

/-- A run in which the request body is the JSON object with the single key
`cep` set to `cep`, the postal-code resolver answers 200 with a body that
decodes as `via`, and the weather provider answers with the status
`weatherStatus` and a body that decodes as `weather`. -/
def scenario (cep : String) (via : Except GoError ViaCEPResponse) (weatherStatus : Nat)
    (weather : Except GoError WeatherAPIResponse) (fused : Bool) : Env :=
  { decodeBody := fun _ => .ok [("cep", cep)],
    newRequestErr := fun _ => none,
    clientDo := fun url =>
      if url = viaCEPURL cep then .ok { StatusCode := 200, Body := "viacep body" }
      else .ok { StatusCode := weatherStatus, Body := "weather body" },
    decodeViaCEP := fun _ => via,
    decodeWeather := fun _ => weather,
    WEATHER_API_KEY := "key",
    QueryEscape := fun s => s,
    fused := fused }

/-- A run in which the request body does not decode as JSON. -/
def undecodable : Env :=
  { scenario "01310100" (.ok { Localidade := "Recife" }) 200
      (.ok { TempC := Float64.ofNat 25 }) false with
    decodeBody := fun _ =>
      .error (.other "*json.SyntaxError" "invalid character 'o' in literal null (expecting 'u')") }

/-- The environment with the status code of every upstream response replaced
by `status url code`. -/
def Env.withStatus (env : Env) (status : String → Nat → Nat) : Env :=
  { env with
    clientDo := fun url =>
      match env.clientDo url with
      | .error err => .error err
      | .ok resp => .ok { resp with StatusCode := status url resp.StatusCode } }

/-- Whether an event belongs to stage 2: the span of the handler around
`getTemperatureByCity`, the span and the attribute of that function, or a
request to the weather provider. -/
def Event.ofStage2 : Event → Bool
  | .spanStart name => name = "get-temperature-by-city" || name = "call-weather-api"
  | .spanEnd name => name = "get-temperature-by-city" || name = "call-weather-api"
  | .setAttribute span _ _ => span = "call-weather-api"
  | .httpGet url => "http://api.weatherapi.com/".data.isPrefixOf url.data

end OTEL.ServiceB
/-! ## Theorems -/

namespace Go.Regexp

/-- The pattern of `isValidCEP` parses to begin-text, eight digits, end-text. -/
theorem parse_cepPattern :
    parse "^\\d{8}$" = some (OpConcat OpBeginText (OpConcat (OpRepeat 8 perlDigit) OpEndText)) := by
  decide

theorem matchAt_perlDigit (input : List Char) (p : Nat) :
    matchAt perlDigit input p = if digitAt input p then [p + 1] else [] := by
  unfold perlDigit matchAt digitAt
  cases h : input.get? p <;> simp

theorem iterate_nil (step : Nat → List Nat) (n : Nat) : iterate step n [] = [] := by
  induction n with
  | zero => rfl
  | succ n ih => simpa [iterate] using ih

theorem iterate_digitStep (input : List Char) (n p : Nat) :
    iterate (fun q => if digitAt input q then [q + 1] else []) n [p] =
      if (List.range n).all (fun i => digitAt input (p + i)) then [p + n] else [] := by
  induction n generalizing p with
  | zero => simp [iterate]
  | succ n ih =>
    simp only [iterate, List.flatMap_cons, List.flatMap_nil, List.append_nil]
    by_cases hd : digitAt input p = true
    · rw [if_pos hd, ih (p + 1)]
      have : (List.range (n + 1)).all (fun i => digitAt input (p + i)) =
          (List.range n).all (fun i => digitAt input (p + 1 + i)) := by
        rw [List.range_succ_eq_map]
        simp [hd, Function.comp_def, Nat.add_assoc, Nat.add_comm 1]
      rw [this]
      simp [Nat.add_assoc, Nat.add_comm 1]
    · rw [if_neg hd, iterate_nil]
      have : (List.range (n + 1)).all (fun i => digitAt input (p + i)) = false := by
        rw [List.range_succ_eq_map]
        simp at hd
        simp [hd]
      rw [this]
      simp

theorem iterate_perlDigit (input : List Char) (n p : Nat) :
    iterate (fun q => matchAt perlDigit input q) n [p] =
      if (List.range n).all (fun i => digitAt input (p + i)) then [p + n] else [] := by
  have h : (fun q => matchAt perlDigit input q) =
      (fun q => if digitAt input q then [q + 1] else []) :=
    funext (fun q => matchAt_perlDigit input q)
  rw [h]
  exact iterate_digitStep input n p

theorem matchAt_concat (a b : Regexp) (input : List Char) (p : Nat) :
    matchAt (OpConcat a b) input p =
      (matchAt a input p).flatMap (fun q => matchAt b input q) := by
  rw [matchAt]

theorem matchAt_repeat (n : Nat) (sub : Regexp) (input : List Char) (p : Nat) :
    matchAt (OpRepeat n sub) input p = iterate (fun q => matchAt sub input q) n [p] := by
  rw [matchAt]

theorem matchAt_beginText (input : List Char) (p : Nat) :
    matchAt OpBeginText input p = if p = 0 then [p] else [] := by
  rw [matchAt]

theorem matchAt_endText (input : List Char) (p : Nat) :
    matchAt OpEndText input p = if p = input.length then [p] else [] := by
  rw [matchAt]

/-- Matching the parsed pattern of `isValidCEP` at position `p`. -/
theorem matchAt_cep (input : List Char) (p : Nat) :
    matchAt (OpConcat OpBeginText (OpConcat (OpRepeat 8 perlDigit) OpEndText)) input p =
      if p = 0 ∧ (List.range 8).all (fun i => digitAt input i) = true ∧ input.length = 8
      then [8] else [] := by
  rw [matchAt_concat, matchAt_beginText]
  by_cases hp : p = 0
  · subst hp
    rw [if_pos rfl]
    simp only [List.flatMap_cons, List.flatMap_nil, List.append_nil]
    rw [matchAt_concat, matchAt_repeat, iterate_perlDigit]
    by_cases hd : (List.range 8).all (fun i => digitAt input (0 + i)) = true
    · have hd2 : (List.range 8).all (fun i => digitAt input i) = true := by simpa using hd
      rw [if_pos hd]
      simp only [List.flatMap_cons, List.flatMap_nil, List.append_nil, matchAt_endText]
      by_cases hl : input.length = 8
      · simp [hd2, hl]
      · have hl2 : ¬ (8 = input.length) := fun h => hl h.symm
        simp [hd2, hl, hl2]
    · have hd2 : ¬ (List.range 8).all (fun i => digitAt input i) = true := by simpa using hd
      rw [if_neg hd]
      simp [hd2]
  · simp [hp]

/-- On the pattern of `isValidCEP`, a match exists exactly for eight runes
that are all ASCII digits. -/
theorem matchString_cep (s : String) :
    matchString (OpConcat OpBeginText (OpConcat (OpRepeat 8 perlDigit) OpEndText)) s = true ↔
      s.length = 8 ∧ ∀ c ∈ s.data, '0' ≤ c ∧ c ≤ '9' := by
  unfold matchString
  simp only [matchAt_cep, List.any_eq_true, List.mem_range]
  constructor
  · rintro ⟨p, _, hp⟩
    by_cases h : p = 0 ∧ (List.range 8).all (fun i => digitAt s.data i) = true ∧ s.data.length = 8
    · obtain ⟨_, hd, hl⟩ := h
      refine ⟨hl, ?_⟩
      match hs : s.data, hl, hd with
      | [a0, a1, a2, a3, a4, a5, a6, a7], _, hd =>
        simp [List.range_succ, digitAt] at hd
        intro c hc
        simp at hc
        rcases hc with h | h | h | h | h | h | h | h <;> subst h <;> simp_all
    · rw [if_neg h] at hp
      simp at hp
  · rintro ⟨hl, hc⟩
    refine ⟨0, by omega, ?_⟩
    have hl2 : s.data.length = 8 := hl
    have hd : (List.range 8).all (fun i => digitAt s.data i) = true := by
      match hs : s.data, hl2, hc with
      | [a0, a1, a2, a3, a4, a5, a6, a7], _, hc =>
        simp [List.range_succ, digitAt]
        simp at hc
        simp_all
    rw [if_pos ⟨rfl, hd, hl2⟩]
    rfl

end Go.Regexp

/-! ## The `float64` model -/

namespace Go.Float64

theorem bitLengthAux_spec (fuel n : Nat) (hfuel : n ≤ fuel) (hn : n ≠ 0) :
    2 ^ (bitLengthAux fuel n - 1) ≤ n ∧ n < 2 ^ bitLengthAux fuel n := by
  induction fuel generalizing n with
  | zero => omega
  | succ fuel ih =>
    rw [bitLengthAux, if_neg hn]
    by_cases h2 : n / 2 = 0
    · have h1 : n = 1 := by omega
      subst h1
      cases fuel <;> simp [bitLengthAux]
    · obtain ⟨hlo, hhi⟩ := ih (n / 2) (by omega) h2
      have hpos : 1 ≤ bitLengthAux fuel (n / 2) := by
        cases fuel with
        | zero => omega
        | succ f => rw [bitLengthAux, if_neg h2]; omega
      have e1 : bitLengthAux fuel (n / 2) + 1 - 1 = (bitLengthAux fuel (n / 2) - 1) + 1 := by
        omega
      rw [e1, pow_succ, pow_succ]
      omega

/-- The function `bitLength` counts binary digits: `2^(k-1) ≤ n < 2^k`. -/
theorem bitLength_spec (n : Nat) (hn : n ≠ 0) :
    2 ^ (bitLength n - 1) ≤ n ∧ n < 2 ^ bitLength n :=
  bitLengthAux_spec n n (le_refl n) hn

/-- The function `roundShift` returns a nearest multiple: the distance from
`m` to `roundShift m sh · 2^sh` is at most half of `2^sh`, on either side. -/
theorem roundShift_nearest (m sh : Nat) :
    2 * (m - roundShift m sh * 2 ^ sh) ≤ 2 ^ sh ∧
    2 * (roundShift m sh * 2 ^ sh - m) ≤ 2 ^ sh := by
  have hP : 0 < 2 ^ sh := Nat.pow_pos (by decide)
  have hdm : 2 ^ sh * (m / 2 ^ sh) + m % 2 ^ sh = m := Nat.div_add_mod m (2 ^ sh)
  have hr : m % 2 ^ sh < 2 ^ sh := Nat.mod_lt m hP
  have hq1 : (m / 2 ^ sh + 1) * 2 ^ sh = 2 ^ sh * (m / 2 ^ sh) + 2 ^ sh := by ring
  have hq0 : (m / 2 ^ sh) * 2 ^ sh = 2 ^ sh * (m / 2 ^ sh) := by ring
  unfold roundShift
  simp only
  split
  · rename_i h
    rw [hq1]
    rcases h with h | ⟨h, _⟩ <;> omega
  · rename_i h
    rw [hq0]
    have : ¬ 2 ^ sh < 2 * (m % 2 ^ sh) := fun hlt => h (Or.inl hlt)
    omega

/-- On a tie the function `roundShift` returns the even neighbour. -/
theorem roundShift_tie_even (m sh : Nat) (htie : 2 * (m % 2 ^ sh) = 2 ^ sh) :
    roundShift m sh % 2 = 0 := by
  unfold roundShift
  simp only
  split
  · rename_i h
    rcases h with h | ⟨_, h⟩ <;> omega
  · rename_i h
    have : ¬ (m / 2 ^ sh) % 2 = 1 := fun ho => h (Or.inr ⟨htie, ho⟩)
    omega

/-- A significand that fits and an exponent in range give a finite value. -/
theorem pack_isFinite (neg : Bool) (q : Nat) (ulp : Int)
    (hulp : ulp ≤ 971) (hcarry : q = 2 ^ 53 → ulp ≤ 970) :
    (pack neg q ulp).isFinite = true := by
  unfold pack maxExp
  by_cases hq : q = 2 ^ 53
  · have := hcarry hq
    rw [if_pos hq, if_neg (by omega)]
    rfl
  · rw [if_neg hq, if_neg (by omega)]
    rfl

/-- Rounding a magnitude of at most `(2^53 - 1) · 2^971 + 273` gives a finite
value: the excess over the largest finite number is below half a unit in the
last place. -/
theorem round_isFinite (neg : Bool) (n k : Nat)
    (hn : n ≤ (2 ^ 53 - 1) * 2 ^ (971 + k) + 273 * 2 ^ k) :
    (round neg n (-(k : Int))).isFinite = true := by
  unfold round
  by_cases hn0 : n = 0
  · simp [hn0, isFinite]
  rw [if_neg hn0]
  obtain ⟨hlo, hhi⟩ := bitLength_spec n hn0
  have hP : 0 < 2 ^ k := Nat.pow_pos (by decide)
  have hQ : 2 ^ (971 + k) = 2 ^ 971 * 2 ^ k := pow_add 2 971 k
  have h273 : 1092 * 2 ^ k ≤ 2 ^ (971 + k) := by
    rw [hQ]
    exact Nat.mul_le_mul_right _ (by norm_num)
  have hlen : bitLength n ≤ 1024 + k := by
    by_contra hcon
    have h1 : 2 ^ (1024 + k) ≤ 2 ^ (bitLength n - 1) :=
      Nat.pow_le_pow_right (by decide) (by omega)
    have h1024 : 2 ^ (1024 + k) = 2 ^ 53 * 2 ^ (971 + k) := by
      rw [← pow_add]; congr 1; omega
    omega
  have hulp : ulpExp n (-(k : Int)) ≤ 971 := by
    unfold ulpExp minExp
    omega
  apply pack_isFinite _ _ _ hulp
  intro hq
  by_contra hcon
  have hu : ulpExp n (-(k : Int)) = 971 := by omega
  have hsh : (ulpExp n (-(k : Int)) - -(k : Int)).toNat = 971 + k := by
    rw [hu]; omega
  rw [scaleTo, if_neg (by omega), hsh] at hq
  have hnear := (roundShift_nearest n (971 + k)).2
  rw [hq] at hnear
  omega

theorem natAbs_signedScaled (neg : Bool) (m k : Nat) :
    (signedScaled neg m k).natAbs = m * 2 ^ k := by
  unfold signedScaled
  cases neg
  · simp only [Bool.false_eq_true, if_false, Int.natAbs_ofNat]
  · simp only [if_true, Int.natAbs_neg, Int.natAbs_ofNat]

set_option maxRecDepth 100000 in
theorem ofNat_273 : ofNat 273 = finite false (273 * 2 ^ 44) (-44) := by decide

set_option maxRecDepth 100000 in
theorem ofNat_32 : ofNat 32 = finite false (2 ^ 52) (-47) := by decide

/-- Adding 273 to a stored finite value never overflows. -/
theorem add_273_isFinite (s : Bool) (m : Nat) (e : Int)
    (hm : m < 2 ^ 53) (he : e ≤ 971) :
    (add (finite s m e) (ofNat 273)).isFinite = true := by
  rw [ofNat_273]
  unfold add
  simp only []
  unfold roundSum
  split
  · rfl
  · obtain ⟨k, hk⟩ : ∃ k : Nat, min e (-44) = -(k : Int) := ⟨(-(min e (-44))).toNat, by omega⟩
    rw [hk]
    apply round_isFinite
    have hk44 : 44 ≤ k := by omega
    have hb : ((-44 : Int) - -(k : Int)).toNat = k - 44 := by omega
    have ha : (e - -(k : Int)).toNat ≤ 971 + k := by omega
    refine le_trans (Int.natAbs_add_le _ _) ?_
    rw [natAbs_signedScaled, natAbs_signedScaled, hb]
    have h1 : m * 2 ^ (e - -(k : Int)).toNat ≤ (2 ^ 53 - 1) * 2 ^ (971 + k) :=
      Nat.mul_le_mul (by omega) (Nat.pow_le_pow_right (by decide) ha)
    have h2 : 273 * 2 ^ 44 * 2 ^ (k - 44) = 273 * 2 ^ k := by
      rw [Nat.mul_assoc, ← pow_add]
      congr 2
      omega
    omega

set_option maxRecDepth 100000 in
set_option exponentiation.threshold 3000 in
/-- The operations on well-known inputs: `0.1 + 0.2` is
`0.30000000000000004` and not `0.3`; `2^53 + 1` is a tie and goes to the even
`2^53`, `2^53 + 3` to `2^53 + 4`; the largest finite number plus `2^970`
overflows and plus `2^969` does not; half the smallest subnormal number is
zero and three quarters of it is itself; `1.1 * 1.1` is
`1.2100000000000002`. -/
theorem known_values :
    add (finite false 7205759403792794 (-56)) (finite false 7205759403792794 (-55)) =
      finite false 5404319552844596 (-54) ∧
    add (ofNat (2 ^ 53)) (ofNat 1) = ofNat (2 ^ 53) ∧
    add (ofNat (2 ^ 53)) (ofNat 3) = ofNat (2 ^ 53 + 4) ∧
    add maxFloat64 (finite false (2 ^ 52) 918) = inf false ∧
    add maxFloat64 (finite false (2 ^ 52) 917) = maxFloat64 ∧
    mul (finite false 1 (-1074)) (finite false (2 ^ 52) (-53)) = finite false 0 (-1074) ∧
    mul (finite false 1 (-1074)) (finite false 6755399441055744 (-53)) =
      finite false 1 (-1074) ∧
    mul (finite false 4953959590107546 (-52)) (finite false 4953959590107546 (-52)) =
      finite false 5449355549118301 (-52) ∧
    add (mul (finite true 5010254585449677 (-48)) const1_8) (ofNat 32) =
      finite true 5764607523034112 (-57) ∧
    add (finite true 273 0) (ofNat 273) = finite false 0 (-1074) := by
  decide

/-- The function `roundShift` returns the quotient or its successor. -/
theorem roundShift_bounds (m sh : Nat) :
    m / 2 ^ sh ≤ roundShift m sh ∧ roundShift m sh ≤ m / 2 ^ sh + 1 := by
  unfold roundShift
  simp only
  split <;> omega

/-- A significand of at most `2^53`, normal unless the exponent is the least
one, packs to a stored value. -/
theorem pack_isStored (neg : Bool) (q : Nat) (ulp : Int)
    (hq : q ≤ 2 ^ 53) (hu : minExp ≤ ulp) (hnorm : ulp ≠ minExp → 2 ^ 52 ≤ q) :
    (pack neg q ulp).isStored = true := by
  unfold pack
  by_cases h53 : q = 2 ^ 53
  · rw [if_pos h53]
    by_cases hov : maxExp < ulp + 1
    · rw [if_pos hov]; rfl
    · rw [if_neg hov]
      unfold minExp at hu
      unfold maxExp at hov
      simp only [isStored, minExp, maxExp, Bool.and_eq_true, Bool.or_eq_true, decide_eq_true_eq]
      refine ⟨⟨⟨by norm_num, by omega⟩, by omega⟩, Or.inl (le_refl _)⟩
  · rw [if_neg h53]
    by_cases hov : maxExp < ulp
    · rw [if_pos hov]; rfl
    · rw [if_neg hov]
      simp only [isStored, Bool.and_eq_true, Bool.or_eq_true, decide_eq_true_eq]
      refine ⟨⟨⟨by omega, hu⟩, by omega⟩, ?_⟩
      by_cases hmin : ulp = minExp
      · exact Or.inr hmin
      · exact Or.inl (hnorm hmin)

/-- At the exponent `ulpExp` the scaled significand has at most 53 bits, and
exactly 53 above the subnormal range. -/
theorem scaleTo_bounds (m : Nat) (e : Int) (hm : m ≠ 0) :
    scaleTo m e (ulpExp m e) ≤ 2 ^ 53 ∧
    (ulpExp m e ≠ minExp → 2 ^ 52 ≤ scaleTo m e (ulpExp m e)) := by
  obtain ⟨hlo, hhi⟩ := bitLength_spec m hm
  have hlen : 1 ≤ bitLength m := by
    by_contra h
    have : bitLength m = 0 := by omega
    rw [this] at hhi
    omega
  have hge : e + (bitLength m : Int) - 53 ≤ ulpExp m e := le_max_left _ _
  have hcase : ulpExp m e = minExp ∨ ulpExp m e = e + (bitLength m : Int) - 53 := by
    unfold ulpExp
    rcases max_choice (e + (bitLength m : Int) - 53) minExp with h | h
    · exact Or.inr h
    · exact Or.inl h
  unfold scaleTo
  by_cases hexact : ulpExp m e ≤ e
  · rw [if_pos hexact]
    have ht : (e - ulpExp m e).toNat + bitLength m ≤ 53 := by omega
    constructor
    · calc m * 2 ^ (e - ulpExp m e).toNat
          ≤ 2 ^ bitLength m * 2 ^ (e - ulpExp m e).toNat :=
            Nat.mul_le_mul_right _ (le_of_lt hhi)
        _ = 2 ^ (bitLength m + (e - ulpExp m e).toNat) := (pow_add 2 _ _).symm
        _ ≤ 2 ^ 53 := Nat.pow_le_pow_right (by decide) (by omega)
    · intro hne
      have hu : ulpExp m e = e + (bitLength m : Int) - 53 := by
        rcases hcase with h | h
        · exact absurd h hne
        · exact h
      have ht2 : (bitLength m - 1) + (e - ulpExp m e).toNat = 52 := by omega
      calc 2 ^ 52 = 2 ^ ((bitLength m - 1) + (e - ulpExp m e).toNat) := by rw [ht2]
        _ = 2 ^ (bitLength m - 1) * 2 ^ (e - ulpExp m e).toNat := pow_add 2 _ _
        _ ≤ m * 2 ^ (e - ulpExp m e).toNat := Nat.mul_le_mul_right _ hlo
  · rw [if_neg hexact]
    obtain ⟨hfl, hce⟩ := roundShift_bounds m (ulpExp m e - e).toNat
    have hP : 0 < 2 ^ (ulpExp m e - e).toNat := Nat.pow_pos (by decide)
    constructor
    · have hlt : m / 2 ^ (ulpExp m e - e).toNat < 2 ^ 53 := by
        rw [Nat.div_lt_iff_lt_mul hP, ← pow_add]
        exact lt_of_lt_of_le hhi (Nat.pow_le_pow_right (by decide) (by omega))
      omega
    · intro hne
      have hu : ulpExp m e = e + (bitLength m : Int) - 53 := by
        rcases hcase with h | h
        · exact absurd h hne
        · exact h
      have hsh : 52 + (ulpExp m e - e).toNat = bitLength m - 1 := by omega
      have : 2 ^ 52 ≤ m / 2 ^ (ulpExp m e - e).toNat := by
        rw [Nat.le_div_iff_mul_le hP, ← pow_add, hsh]
        exact hlo
      omega

/-- Rounding gives a value in the form the format stores. -/
theorem round_isStored (neg : Bool) (m : Nat) (e : Int) : (round neg m e).isStored = true := by
  unfold round
  by_cases hm : m = 0
  · rw [if_pos hm]
    cases neg <;> decide
  · rw [if_neg hm]
    obtain ⟨h1, h2⟩ := scaleTo_bounds m e hm
    exact pack_isStored neg _ _ h1 (le_max_right _ _) h2

/-- Rounding a signed sum gives a stored value. -/
theorem roundSum_isStored (s1 s2 : Bool) (v e : Int) : (roundSum s1 s2 v e).isStored = true := by
  unfold roundSum
  split
  · cases s1 <;> cases s2 <;> decide
  · exact round_isStored _ _ _

/-- The sum, the product and the fused multiply-add of any values are in the
form the format stores. -/
theorem operations_isStored (x y z : Float64) :
    (add x y).isStored = true ∧ (mul x y).isStored = true ∧ (fma x y z).isStored = true := by
  have hadd : ∀ a b : Float64, (add a b).isStored = true := by
    intro a b
    cases a <;> cases b <;> simp only [add] <;> first
      | exact roundSum_isStored _ _ _ _
      | rfl
      | (split <;> rfl)
  have hmul : ∀ a b : Float64, (mul a b).isStored = true := by
    intro a b
    cases a <;> cases b <;> simp only [mul] <;> first
      | exact round_isStored _ _ _
      | rfl
      | (split <;> rfl)
  refine ⟨hadd x y, hmul x y, ?_⟩
  cases x <;> cases y <;> cases z <;> simp only [fma] <;> first
    | exact roundSum_isStored _ _ _ _
    | exact hadd _ _

/-- The constant `const1_8` is within half a unit in the last place of 9/5,
so it is the `float64` the Go compiler gives the literal `1.8`. -/
theorem const1_8_nearest :
    ∃ q : ℚ, const1_8.toRat = some q ∧ |q - 9 / 5| ≤ 1 / 2 ^ 53 ∧
      2 ^ 52 ≤ 8106479329266893 ∧ 8106479329266893 < 2 ^ 53 := by
  refine ⟨(8106479329266893 : ℚ) * (2 : ℚ) ^ (-52 : ℤ), ?_, ?_, by norm_num, by norm_num⟩
  · simp [const1_8, toRat]
  · rw [abs_le]
    constructor <;> norm_num

end Go.Float64

/-! ## The format check -/

namespace OTEL

/-- The spec's wording of a well-formed postal code: exactly eight
characters, each an ASCII decimal digit. -/
theorem ServiceA.isValidCEP_iff_hop1 (s : String) :
    ServiceA.isValidCEP s = true ↔ s.length = 8 ∧ ∀ c ∈ s.data, '0' ≤ c ∧ c ≤ '9' := by
  unfold ServiceA.isValidCEP Go.Regexp.MatchString
  rw [Go.Regexp.parse_cepPattern]
  exact Go.Regexp.matchString_cep s

theorem ServiceB.isValidCEP_iff_hop2 (s : String) :
    ServiceB.isValidCEP s = true ↔ s.length = 8 ∧ ∀ c ∈ s.data, '0' ≤ c ∧ c ≤ '9' := by
  unfold ServiceB.isValidCEP Go.Regexp.MatchString
  rw [Go.Regexp.parse_cepPattern]
  exact Go.Regexp.matchString_cep s

/-- C6: `isValidCEP s` holds exactly when `s` has eight characters that are
all ASCII decimal digits; the copy of hop 2 returns what the copy of hop 1
returns on every string; the empty string, a 7-digit and a 9-digit string, a
string with a hyphen, one with a trailing newline and one of non-ASCII digits
are rejected. -/
theorem C6_isValidCEP_exactly_eight_ascii_digits :
    (∀ s : String, ServiceA.isValidCEP s = true ↔
        s.length = 8 ∧ ∀ c ∈ s.data, '0' ≤ c ∧ c ≤ '9') ∧
    (∀ s : String, ServiceB.isValidCEP s = ServiceA.isValidCEP s) ∧
    ServiceA.isValidCEP "" = false ∧
    ServiceA.isValidCEP "1234567" = false ∧
    ServiceA.isValidCEP "123456789" = false ∧
    ServiceA.isValidCEP "01310-100" = false ∧
    ServiceA.isValidCEP "01310100\n" = false ∧
    ServiceA.isValidCEP "١٢٣٤٥٦٧٨" = false ∧
    ServiceA.isValidCEP "01310100" = true := by
  refine ⟨ServiceA.isValidCEP_iff_hop1, fun s => rfl, ?_, ?_, ?_, ?_, ?_, ?_, ?_⟩ <;> decide

end OTEL

/-! ## The rate-lookup server -/

namespace Desafio1.Server

open Go

/-- The context of the upstream call is done no later than 200ms after the
handler starts, whatever the context of the inbound request. -/
theorem ctxAPI_done (ctx : Context) :
    ∃ t err, (Context.WithTimeout ctx 200).done = some (t, err) ∧ t ≤ 200 := by
  obtain ⟨deadline, canceledAt⟩ := ctx
  cases deadline <;> cases canceledAt <;> simp only [Context.WithTimeout, Context.done]
  · exact ⟨_, _, rfl, le_refl _⟩
  · rename_i c
    by_cases h : c < 200
    · exact ⟨c, .canceled, by simp [h], by omega⟩
    · exact ⟨200, .deadlineExceeded, by simp [h], le_refl _⟩
  · rename_i d
    exact ⟨_, _, rfl, Nat.min_le_right _ _⟩
  · rename_i d c
    by_cases h : c < min d 200
    · exact ⟨c, .canceled, by simp [h], by have := Nat.min_le_right d 200; omega⟩
    · exact ⟨min d 200, .deadlineExceeded, by simp [h], Nat.min_le_right _ _⟩

/-- When the response headers are not in by the time the context is done,
`BuscarCotacaoAPI` returns a `*url.Error`. -/
theorem BuscarCotacaoAPI_late (ctx : Context) (up : Upstream)
    (hreq : up.newRequestErr = none) (hlate : 200 ≤ up.exchange.headersAt) :
    ∃ err, BuscarCotacaoAPI (Context.WithTimeout ctx 200) up = .error (.urlError "Get" URL err) := by
  obtain ⟨t, err, hdone, ht⟩ := ctxAPI_done ctx
  refine ⟨err, ?_⟩
  have hle : t ≤ up.exchange.headersAt := le_trans ht hlate
  simp [BuscarCotacaoAPI, hreq, clientDo, hdone, hle, urlErrorOp]

/-- For every request in which the response of the rate provider is not in
within the 200ms budget, `BuscarCotacaoAPI` returns the `*url.Error` of
`http.DefaultClient.Do`, the comparison `err == context.DeadlineExceeded` is
false, and `ConsultarCotacao` answers 500 (`Erro ao buscar cotação`), not
408. -/
theorem ConsultarCotacao_late_answers_500 (r : Request) (up : Upstream) (db : Database)
    (hreq : up.newRequestErr = none) (hlate : 200 ≤ up.exchange.headersAt) :
    (ConsultarCotacao r up db).reply = httpError "Erro ao buscar cotação" StatusInternalServerError ∧
    (ConsultarCotacao r up db).reply.status = 500 ∧
    (ConsultarCotacao r up db).reply.status ≠ 408 := by
  obtain ⟨err, h⟩ := BuscarCotacaoAPI_late r.ctx up hreq hlate
  have hreply : (ConsultarCotacao r up db).reply =
      httpError "Erro ao buscar cotação" StatusInternalServerError := by
    simp [ConsultarCotacao, h, GoError.eqDeadlineExceeded]
  refine ⟨hreply, ?_, ?_⟩ <;> rw [hreply] <;> decide

/-- C1 (the code at the failing input): in the end-to-end example of the
specification the provider answers after 250ms; `BuscarCotacaoAPI` returns
the `*url.Error` that wraps `context.DeadlineExceeded`, which `errors.Is`
would recognise and `==` does not, and `ConsultarCotacao` answers 500 where
the claim says 408. -/
theorem C1_upstream_timeout_at_250ms :
    BuscarCotacaoAPI (Context.WithTimeout plainRequest.ctx 200) slowUpstream =
      .error (.urlError "Get" URL .deadlineExceeded) ∧
    GoError.isDeadlineExceeded (.urlError "Get" URL .deadlineExceeded) = true ∧
    GoError.eqDeadlineExceeded (.urlError "Get" URL .deadlineExceeded) = false ∧
    (ConsultarCotacao plainRequest slowUpstream quickDatabase).reply.status = 500 ∧
    (ConsultarCotacao plainRequest slowUpstream quickDatabase).reply.status ≠ 408 :=
  ⟨rfl, by decide, by decide,
   (ConsultarCotacao_late_answers_500 plainRequest slowUpstream quickDatabase rfl (by decide)).2.1,
   (ConsultarCotacao_late_answers_500 plainRequest slowUpstream quickDatabase rfl (by decide)).2.2⟩

/-- C2: for every request whose upstream call succeeds with bid `b`, the
reply of `ConsultarCotacao` is status 200, `Content-Type: application/json`
and the body `{"bid": b}`, whatever the database does: the insert succeeding,
exceeding its deadline, or failing with any other error. -/
theorem C2_reply_independent_of_persistence (r : Request) (up : Upstream) (b : String)
    (hup : BuscarCotacaoAPI (Context.WithTimeout r.ctx 200) up = .ok { Bid := b }) :
    ∀ db : Database,
      (ConsultarCotacao r up db).reply =
        { status := 200, contentType := "application/json", body := .jsonMap [("bid", b)] } := by
  intro db
  simp [ConsultarCotacao, hup, StatusOK]

/-- C2 at a concrete run: the reply with the insert succeeding, with the
insert given up at its 10ms deadline, with `sql.Open` failing and with the
database locked is the same. -/
theorem C2_reply_independent_of_persistence_witness :
    InserirDB (Context.WithTimeout Context.Background 10) "5.4321" quickDatabase = none ∧
    InserirDB (Context.WithTimeout Context.Background 10) "5.4321" slowDatabase =
      some .deadlineExceeded ∧
    (ConsultarCotacao plainRequest fastUpstream quickDatabase).reply =
      { status := 200, contentType := "application/json", body := .jsonMap [("bid", "5.4321")] } ∧
    (ConsultarCotacao plainRequest fastUpstream slowDatabase).reply =
      (ConsultarCotacao plainRequest fastUpstream quickDatabase).reply ∧
    (ConsultarCotacao plainRequest fastUpstream
        { openErr := some (.other "sqlite3.Error" "unable to open database file"),
          execErr := none }).reply =
      (ConsultarCotacao plainRequest fastUpstream quickDatabase).reply ∧
    (ConsultarCotacao plainRequest fastUpstream lockedDatabase).reply =
      (ConsultarCotacao plainRequest fastUpstream quickDatabase).reply := by
  have h := C2_reply_independent_of_persistence plainRequest fastUpstream "5.4321" rfl
  exact ⟨by decide, by decide, h _, by rw [h, h], by rw [h, h], by rw [h, h]⟩

end Desafio1.Server

/-! ## The fan-out race -/

namespace Desafio2

open Go

/-- A provider that fails never sends on its channel. -/
theorem buscaBrasilAPI_fails (c : String) (run : ProviderRun BrasilAPIResponse)
    (h : run.fails brasilAPINotFound = true) : (buscaBrasilAPI c run).send = none := by
  unfold ProviderRun.fails at h
  unfold buscaBrasilAPI
  cases h1 : run.httpGet with
  | error e => rfl
  | ok u =>
    cases h2 : run.readAll with
    | error e => rfl
    | ok body =>
      cases h3 : run.unmarshal body with
      | error e => simp [h3]
      | ok data =>
        have hnf : data.CEP = "" := by simpa [h1, h2, h3, brasilAPINotFound] using h
        simp [h3, hnf]

theorem buscaViaCEP_fails (c : String) (run : ProviderRun ViaCEPResponse)
    (h : run.fails viaCEPNotFound = true) : (buscaViaCEP c run).send = none := by
  unfold ProviderRun.fails at h
  unfold buscaViaCEP
  cases h1 : run.httpGet with
  | error e => rfl
  | ok u =>
    cases h2 : run.readAll with
    | error e => rfl
    | ok body =>
      cases h3 : run.unmarshal body with
      | error e => simp [h3]
      | ok data =>
        have hnf : data.Erro = true := by simpa [h1, h2, h3, viaCEPNotFound] using h
        simp [h3, hnf]

/-- With no sender, the only case of the `select` is the timer. -/
theorem select_no_sender (b v : Goroutine) (hb : b.send = none) (hv : v.send = none) :
    select (selectCases b v) = [Branch.timeout] := by
  simp [selectCases, hb, hv, select, List.min?]

/-- With two senders at distinct times below the bound, the `select` runs
the receive of the earlier one. -/
theorem select_two_senders (b v : Goroutine) (r1 r2 : String)
    (hb : b.send = some r1) (hv : v.send = some r2)
    (hne : b.doneAt ≠ v.doneAt) (h1 : b.doneAt < raceBound) (h2 : v.doneAt < raceBound) :
    select (selectCases b v) =
      [if b.doneAt < v.doneAt then Branch.brasilAPI r1 else Branch.viaCEP r2] := by
  have hmin : ([b.doneAt, v.doneAt, raceBound] : List Nat).min? =
      some (min b.doneAt (min v.doneAt raceBound)) := by
    simp [List.min?, List.foldl, Nat.min_assoc]
  simp only [selectCases, hb, hv, select, List.map, List.cons_append, List.nil_append, hmin]
  by_cases hlt : b.doneAt < v.doneAt
  · have e1 : min b.doneAt (min v.doneAt raceBound) = b.doneAt := by omega
    rw [e1, if_pos hlt]
    have n2 : ¬ v.doneAt = b.doneAt := fun h => hne h.symm
    have n3 : ¬ raceBound = b.doneAt := by omega
    simp [List.filter, n2, n3]
  · have e1 : min b.doneAt (min v.doneAt raceBound) = v.doneAt := by omega
    rw [e1, if_neg hlt]
    have n3 : ¬ raceBound = v.doneAt := by omega
    simp [List.filter, hne, n3]

theorem buscaBrasilAPI_doneAt (c : String) (run : ProviderRun BrasilAPIResponse) :
    (buscaBrasilAPI c run).doneAt = run.doneAt := by
  unfold buscaBrasilAPI
  repeat' split
  all_goals rfl

theorem buscaViaCEP_doneAt (c : String) (run : ProviderRun ViaCEPResponse) :
    (buscaViaCEP c run).doneAt = run.doneAt := by
  unfold buscaViaCEP
  repeat' split
  all_goals rfl

/-- C3 (as stated) fails: BrasilAPI is unreachable after 10ms and ViaCEP
answers `erro: true` after 20ms, both before the 1000ms bound, and the only
branch `main` can take is the `time.After` branch. -/
theorem C3_all_failed_counterexample :
    (brasilAPIDown 10).fails brasilAPINotFound = true ∧
    (viaCEPUnknown 20).fails viaCEPNotFound = true ∧
    (brasilAPIDown 10).doneAt < raceBound ∧
    (viaCEPUnknown 20).doneAt < raceBound ∧
    main (brasilAPIDown 10) (viaCEPUnknown 20) = [Branch.timeout] ∧
    (main (brasilAPIDown 10) (viaCEPUnknown 20)).map Branch.stdout =
      [["Erro: Timeout de 1 segundo atingido."]] := by
  decide

/-- C3 (amended): for every run in which both providers fail (HTTP error,
body read error, JSON decode error or not-found marker), at whatever time,
neither goroutine sends on its channel and the `select` of `main` takes the
`time.After` branch, the only one it can take: the race ends by the 1000ms
timeout and prints the timeout line. -/
theorem C3_all_failed_ends_by_timeout
    (runB : ProviderRun BrasilAPIResponse) (runV : ProviderRun ViaCEPResponse)
    (hB : runB.fails brasilAPINotFound = true) (hV : runV.fails viaCEPNotFound = true) :
    (buscaBrasilAPI cep runB).send = none ∧
    (buscaViaCEP cep runV).send = none ∧
    main runB runV = [Branch.timeout] ∧
    (main runB runV).map Branch.stdout = [["Erro: Timeout de 1 segundo atingido."]] := by
  have hb := buscaBrasilAPI_fails cep runB hB
  have hv := buscaViaCEP_fails cep runV hV
  have hm : main runB runV = [Branch.timeout] := select_no_sender _ _ hb hv
  exact ⟨hb, hv, hm, by rw [hm]; rfl⟩

/-- C3 (amended) at a run in which `http.Get` fails for BrasilAPI after 300ms
and ViaCEP answers `erro: true` after 450ms. -/
theorem C3_all_failed_ends_by_timeout_witness :
    (brasilAPIDown 300).fails brasilAPINotFound = true ∧
    (viaCEPUnknown 450).fails viaCEPNotFound = true ∧
    main (brasilAPIDown 300) (viaCEPUnknown 450) = [Branch.timeout] :=
  ⟨by decide, by decide,
   (C3_all_failed_ends_by_timeout (brasilAPIDown 300) (viaCEPUnknown 450)
      (by decide) (by decide)).2.2.1⟩

/-- C4: when both providers send, at distinct times below the 1000ms bound,
`main` can take one branch only, the receive from the provider that sent
first; that branch surfaces exactly one result, the one of that provider; and
a run in which the two providers have exchanged their times and results
surfaces the same result. -/
theorem C4_earlier_sender_wins
    (runB runB1 : ProviderRun BrasilAPIResponse) (runV runV1 : ProviderRun ViaCEPResponse)
    (r1 r2 : String)
    (hB : (buscaBrasilAPI cep runB).send = some r1)
    (hV : (buscaViaCEP cep runV).send = some r2)
    (hne : runB.doneAt ≠ runV.doneAt)
    (h1 : runB.doneAt < raceBound) (h2 : runV.doneAt < raceBound)
    (hB1 : (buscaBrasilAPI cep runB1).send = some r2)
    (hV1 : (buscaViaCEP cep runV1).send = some r1)
    (ht1 : runB1.doneAt = runV.doneAt) (ht2 : runV1.doneAt = runB.doneAt) :
    main runB runV =
      [if runB.doneAt < runV.doneAt then Branch.brasilAPI r1 else Branch.viaCEP r2] ∧
    (main runB runV).map Branch.surfaced =
      [[if runB.doneAt < runV.doneAt then r1 else r2]] ∧
    (main runB1 runV1).map Branch.surfaced = (main runB runV).map Branch.surfaced := by
  have dB := buscaBrasilAPI_doneAt cep runB
  have dV := buscaViaCEP_doneAt cep runV
  have dB1 := buscaBrasilAPI_doneAt cep runB1
  have dV1 := buscaViaCEP_doneAt cep runV1
  have hm : main runB runV =
      [if runB.doneAt < runV.doneAt then Branch.brasilAPI r1 else Branch.viaCEP r2] := by
    have := select_two_senders (buscaBrasilAPI cep runB) (buscaViaCEP cep runV) r1 r2 hB hV
      (by rw [dB, dV]; exact hne) (by rw [dB]; exact h1) (by rw [dV]; exact h2)
    rw [dB, dV] at this
    exact this
  have hm1 : main runB1 runV1 =
      [if runV.doneAt < runB.doneAt then Branch.brasilAPI r2 else Branch.viaCEP r1] := by
    have := select_two_senders (buscaBrasilAPI cep runB1) (buscaViaCEP cep runV1) r2 r1 hB1 hV1
      (by rw [dB1, dV1, ht1, ht2]; exact fun h => hne h.symm)
      (by rw [dB1, ht1]; exact h2) (by rw [dV1, ht2]; exact h1)
    rw [dB1, dV1, ht1, ht2] at this
    exact this
  have hs : (main runB runV).map Branch.surfaced =
      [[if runB.doneAt < runV.doneAt then r1 else r2]] := by
    rw [hm]
    by_cases h : runB.doneAt < runV.doneAt <;> simp [h, Branch.surfaced]
  refine ⟨hm, hs, ?_⟩
  rw [hs, hm1]
  by_cases h : runB.doneAt < runV.doneAt
  · have h3 : ¬ runV.doneAt < runB.doneAt := by omega
    simp [h, h3, Branch.surfaced]
  · have h3 : runV.doneAt < runB.doneAt := by omega
    simp [h, h3, Branch.surfaced]

/-- C4 at the example of the specification: one provider sends after 100ms,
the other after 900ms; whichever of the two is the fast one, its result is
the one surfaced. -/
theorem C4_earlier_sender_wins_witness :
    main (brasilAPIAnswers "52020060" 900) (viaCEPAnswers "52020-060" 100) =
      [Branch.viaCEP
        "CEP: 52020-060\nLogradouro: Rua da Hora\nBairro: Espinheiro\nCidade: Recife\nEstado: PE"] ∧
    (main (brasilAPIAnswers "52020-060" 100) (viaCEPAnswers "52020060" 900)).map Branch.surfaced =
      [["CEP: 52020-060\nLogradouro: Rua da Hora\nBairro: Espinheiro\nCidade: Recife\nEstado: PE"]] := by
  have h := C4_earlier_sender_wins
    (brasilAPIAnswers "52020060" 900) (brasilAPIAnswers "52020-060" 100)
    (viaCEPAnswers "52020-060" 100) (viaCEPAnswers "52020060" 900)
    "CEP: 52020060\nLogradouro: Rua da Hora\nBairro: Espinheiro\nCidade: Recife\nEstado: PE"
    "CEP: 52020-060\nLogradouro: Rua da Hora\nBairro: Espinheiro\nCidade: Recife\nEstado: PE"
    (by decide) (by decide) (by decide) (by decide) (by decide)
    (by decide) (by decide) (by decide) (by decide)
  exact ⟨h.1, h.2.2.trans h.2.1⟩

end Desafio2

/-! ## The two-hop chain -/

namespace OTEL

open Go

/-- C5: for every request whose JSON body decodes and whose `cep` is not
exactly eight ASCII decimal digits, `HandleCEPRequest` (hop 1) and
`HandleWeatherRequest` (hop 2) answer 422 and do nothing towards the outside:
hop 1 makes no call to the downstream hop, hop 2 starts no span and makes no
request, so neither `findCityByCEP` nor `getTemperatureByCity` runs. -/
theorem C5_malformed_cep_422_without_outbound_call
    (envA : ServiceA.Env) (envB : ServiceB.Env) (body cep : String)
    (hbad : ¬ (cep.length = 8 ∧ ∀ c ∈ cep.data, '0' ≤ c ∧ c ≤ '9')) :
    (envA.decodeBody body = .ok { Cep := cep } →
      (ServiceA.HandleCEPRequest envA body).reply.status = 422 ∧
      (ServiceA.HandleCEPRequest envA body).calls = []) ∧
    (∀ m, envB.decodeBody body = .ok m → ServiceB.mapIndex m "cep" = cep →
      (ServiceB.HandleWeatherRequest envB body).reply.status = 422 ∧
      (ServiceB.HandleWeatherRequest envB body).events = []) := by
  have hA : ServiceA.isValidCEP cep = false := by
    rw [← Bool.not_eq_true, ServiceA.isValidCEP_iff_hop1]
    exact hbad
  have hB : ServiceB.isValidCEP cep = false := by
    rw [← Bool.not_eq_true, ServiceB.isValidCEP_iff_hop2]
    exact hbad
  constructor
  · intro hdec
    simp [ServiceA.HandleCEPRequest, hdec, hA, ServiceA.httpError, StatusUnprocessableEntity]
  · intro m hdec hcep
    simp [ServiceB.HandleWeatherRequest, hdec, hcep, hB, ServiceB.httpError,
      StatusUnprocessableEntity]

/-- C5 at the postal code `01310-100`, which has a hyphen. -/
theorem C5_malformed_cep_422_without_outbound_call_witness :
    (ServiceA.HandleCEPRequest (ServiceA.scenario "01310-100") "body").reply.status = 422 ∧
    (ServiceA.HandleCEPRequest (ServiceA.scenario "01310-100") "body").calls = [] ∧
    (ServiceB.HandleWeatherRequest
      (ServiceB.scenario "01310-100" (.ok { Localidade := "Recife" }) 200
        (.ok { TempC := Float64.ofNat 25 }) false) "body").reply.status = 422 ∧
    (ServiceB.HandleWeatherRequest
      (ServiceB.scenario "01310-100" (.ok { Localidade := "Recife" }) 200
        (.ok { TempC := Float64.ofNat 25 }) false) "body").events = [] := by
  have h := C5_malformed_cep_422_without_outbound_call (ServiceA.scenario "01310-100")
    (ServiceB.scenario "01310-100" (.ok { Localidade := "Recife" }) 200
      (.ok { TempC := Float64.ofNat 25 }) false) "body" "01310-100" (by decide)
  exact ⟨(h.1 rfl).1, (h.1 rfl).2, (h.2 _ rfl rfl).1, (h.2 _ rfl rfl).2⟩

namespace ServiceB

/-- C7: in hop 2, for every `cep` that passes the format check and for which
the response of the postal-code resolver decodes with an empty `localidade`,
`findCityByCEP` fails with the marker `can not find zipcode` and
`HandleWeatherRequest` answers 404 with that text. -/
theorem C7_empty_localidade_answers_404 (env : Env) (body : String)
    (m : List (String × String)) (resp : HttpResponse)
    (hdec : env.decodeBody body = .ok m)
    (hvalid : isValidCEP (mapIndex m "cep") = true)
    (hreq : env.newRequestErr (viaCEPURL (mapIndex m "cep")) = none)
    (hdo : env.clientDo (viaCEPURL (mapIndex m "cep")) = .ok resp)
    (hloc : env.decodeViaCEP resp.Body = .ok { Localidade := "" }) :
    (findCityByCEP env (mapIndex m "cep")).result =
      .error (.errorString "can not find zipcode") ∧
    (HandleWeatherRequest env body).reply = httpError "can not find zipcode" StatusNotFound ∧
    (HandleWeatherRequest env body).reply.status = 404 := by
  have h1 : (findCityByCEP env (mapIndex m "cep")).result =
      .error (.errorString "can not find zipcode") := by
    simp [findCityByCEP, hreq, hdo, hloc]
  have h2 : (HandleWeatherRequest env body).reply =
      httpError "can not find zipcode" StatusNotFound := by
    simp [HandleWeatherRequest, hdec, hvalid, h1, GoError.Error]
  exact ⟨h1, h2, by rw [h2]; rfl⟩

/-- C7 at the postal code `01310100` with a resolver that reports an empty
`localidade`. -/
theorem C7_empty_localidade_answers_404_witness :
    isValidCEP "01310100" = true ∧
    (HandleWeatherRequest
      (scenario "01310100" (.ok { Localidade := "" }) 200 (.ok { TempC := Float64.ofNat 25 })
        false) "body").reply.status = 404 :=
  ⟨by decide,
   (C7_empty_localidade_answers_404
      (scenario "01310100" (.ok { Localidade := "" }) 200 (.ok { TempC := Float64.ofNat 25 })
        false) "body" [("cep", "01310100")] { StatusCode := 200, Body := "viacep body" }
      rfl (by decide) rfl rfl rfl).2.2⟩

/-- No event of `findCityByCEP` belongs to stage 2. -/
theorem findCityByCEP_events_not_stage2 (env : Env) (cep : String) :
    ∀ ev ∈ (findCityByCEP env cep).events, ev.ofStage2 = false := by
  have hurl : Event.ofStage2 (.httpGet (viaCEPURL cep)) = false := by
    simp [Event.ofStage2, viaCEPURL, String.data_append]
    rfl
  have key : (findCityByCEP env cep).events =
        [Event.spanStart "call-viacep-api", Event.setAttribute "call-viacep-api" "cep" cep,
          Event.spanEnd "call-viacep-api"] ∨
      (findCityByCEP env cep).events =
        [Event.spanStart "call-viacep-api", Event.setAttribute "call-viacep-api" "cep" cep,
          Event.httpGet (viaCEPURL cep), Event.spanEnd "call-viacep-api"] := by
    unfold findCityByCEP
    repeat' split
    all_goals simp
  intro ev hev
  rcases key with h | h <;> rw [h] at hev <;> simp at hev
  · rcases hev with h | h | h <;> subst h <;> simp [Event.ofStage2]
  · rcases hev with h | h | h | h
    · subst h; simp [Event.ofStage2]
    · subst h; simp [Event.ofStage2]
    · subst h; exact hurl
    · subst h; simp [Event.ofStage2]

/-- The first two events of `getTemperatureByCity` are the start of its span
and the attribute `city` set to its argument. -/
theorem getTemperatureByCity_events_head (env : Env) (cityName : String) :
    ∃ rest, (getTemperatureByCity env cityName).events =
      Event.spanStart "call-weather-api" ::
        Event.setAttribute "call-weather-api" "city" cityName :: rest := by
  unfold getTemperatureByCity
  repeat' split
  all_goals exact ⟨_, rfl⟩

/-- The run of a request whose body does not decode: 400, nothing done. -/
theorem run_decode_error (env : Env) (body : String) (e : GoError)
    (hdec : env.decodeBody body = .error e) :
    HandleWeatherRequest env body =
      { events := [], reply := httpError "invalid request body" StatusBadRequest } := by
  simp [HandleWeatherRequest, hdec]

/-- The run of a request whose `cep` fails the format check: 422, nothing
done. -/
theorem run_invalid_cep (env : Env) (body : String) (m : List (String × String))
    (hdec : env.decodeBody body = .ok m) (hbad : isValidCEP (mapIndex m "cep") = false) :
    HandleWeatherRequest env body =
      { events := [], reply := httpError "invalid zipcode" StatusUnprocessableEntity } := by
  simp [HandleWeatherRequest, hdec, hbad]

/-- The run of a request whose stage 1 fails: 404 or 500, and the events of
stage 1 alone. -/
theorem run_stage1_error (env : Env) (body : String) (m : List (String × String))
    (err : GoError)
    (hdec : env.decodeBody body = .ok m) (hvalid : isValidCEP (mapIndex m "cep") = true)
    (herr : (findCityByCEP env (mapIndex m "cep")).result = .error err) :
    (HandleWeatherRequest env body).reply.status ≠ 200 ∧
    (HandleWeatherRequest env body).events =
      [Event.spanStart "find-city-by-cep"] ++ (findCityByCEP env (mapIndex m "cep")).events ++
        [Event.spanEnd "find-city-by-cep"] ∧
    ∀ ev ∈ (HandleWeatherRequest env body).events, ev.ofStage2 = false := by
  have hev : (HandleWeatherRequest env body).events =
      [Event.spanStart "find-city-by-cep"] ++ (findCityByCEP env (mapIndex m "cep")).events ++
        [Event.spanEnd "find-city-by-cep"] := by
    simp only [HandleWeatherRequest, hdec, hvalid, herr]
    by_cases h : err.Error = "can not find zipcode" <;> simp [h]
  have hst : (HandleWeatherRequest env body).reply.status ≠ 200 := by
    simp only [HandleWeatherRequest, hdec, hvalid, herr]
    by_cases h : err.Error = "can not find zipcode" <;>
      simp [h, httpError, StatusNotFound, StatusInternalServerError]
  refine ⟨hst, hev, ?_⟩
  intro ev hmem
  rw [hev] at hmem
  simp only [List.mem_append, List.mem_singleton] at hmem
  rcases hmem with (h | h) | h
  · subst h; simp [Event.ofStage2]
  · exact findCityByCEP_events_not_stage2 env _ ev h
  · subst h; simp [Event.ofStage2]

/-- The run of a request whose stage 1 returns a city: the events of stage 1,
then one run of `getTemperatureByCity` on that city inside its span; the
reply is 200 only when stage 2 returns a temperature. -/
theorem run_stage1_ok (env : Env) (body : String) (m : List (String × String))
    (cityName : String)
    (hdec : env.decodeBody body = .ok m) (hvalid : isValidCEP (mapIndex m "cep") = true)
    (hok : (findCityByCEP env (mapIndex m "cep")).result = .ok cityName) :
    (HandleWeatherRequest env body).events =
      [Event.spanStart "find-city-by-cep"] ++ (findCityByCEP env (mapIndex m "cep")).events ++
        [Event.spanEnd "find-city-by-cep"] ++ [Event.spanStart "get-temperature-by-city"] ++
        (getTemperatureByCity env cityName).events ++
        [Event.spanEnd "get-temperature-by-city"] ∧
    ((HandleWeatherRequest env body).reply.status = 200 →
      ∃ tempC, (getTemperatureByCity env cityName).result = .ok tempC) := by
  constructor
  · simp only [HandleWeatherRequest, hdec, hvalid, hok]
    cases h2 : (getTemperatureByCity env cityName).result <;> simp [h2]
  · simp only [HandleWeatherRequest, hdec, hvalid, hok]
    cases h2 : (getTemperatureByCity env cityName).result with
    | error err => simp [h2, httpError, StatusInternalServerError]
    | ok tempC => intro _; exact ⟨tempC, rfl⟩

/-- C9: in `HandleWeatherRequest`, for every environment and every request
body: (1) if the run holds any event of stage 2 (the span around
`getTemperatureByCity`, its own span or attribute, a request to the weather
provider), or if the reply is 200, then the body decoded, the `cep` passed
the format check and `findCityByCEP` returned a city without error, and the
events of the run are those of stage 1 followed by exactly one run of
`getTemperatureByCity` on that very city, which records the city as its
attribute; (2) a body that does not decode gives 400 and no event, a `cep`
that fails the format check gives 422 and no event; (3) for every error of
stage 1 the reply is not 200 and the events are those of stage 1 alone, none
of stage 2; (4) when stage 1 returns a city, stage 2 runs once on it. -/
theorem C9_stage2_only_after_stage1_success (env : Env) (body : String) :
    (((∃ ev ∈ (HandleWeatherRequest env body).events, ev.ofStage2 = true) ∨
        (HandleWeatherRequest env body).reply.status = 200) →
      ∃ m cityName,
        env.decodeBody body = .ok m ∧
        isValidCEP (mapIndex m "cep") = true ∧
        (findCityByCEP env (mapIndex m "cep")).result = .ok cityName ∧
        (HandleWeatherRequest env body).events =
          [Event.spanStart "find-city-by-cep"] ++
            (findCityByCEP env (mapIndex m "cep")).events ++
            [Event.spanEnd "find-city-by-cep"] ++ [Event.spanStart "get-temperature-by-city"] ++
            (getTemperatureByCity env cityName).events ++
            [Event.spanEnd "get-temperature-by-city"] ∧
        ∃ rest, (getTemperatureByCity env cityName).events =
          Event.spanStart "call-weather-api" ::
            Event.setAttribute "call-weather-api" "city" cityName :: rest) ∧
    (∀ e, env.decodeBody body = .error e →
      (HandleWeatherRequest env body).events = [] ∧
      (HandleWeatherRequest env body).reply.status = 400) ∧
    (∀ m, env.decodeBody body = .ok m → isValidCEP (mapIndex m "cep") = false →
      (HandleWeatherRequest env body).events = [] ∧
      (HandleWeatherRequest env body).reply.status = 422) ∧
    (∀ m err, env.decodeBody body = .ok m → isValidCEP (mapIndex m "cep") = true →
      (findCityByCEP env (mapIndex m "cep")).result = .error err →
      (HandleWeatherRequest env body).reply.status ≠ 200 ∧
      (HandleWeatherRequest env body).events =
        [Event.spanStart "find-city-by-cep"] ++ (findCityByCEP env (mapIndex m "cep")).events ++
          [Event.spanEnd "find-city-by-cep"] ∧
      ∀ ev ∈ (HandleWeatherRequest env body).events, ev.ofStage2 = false) ∧
    (∀ m cityName, env.decodeBody body = .ok m → isValidCEP (mapIndex m "cep") = true →
      (findCityByCEP env (mapIndex m "cep")).result = .ok cityName →
      (HandleWeatherRequest env body).events =
        [Event.spanStart "find-city-by-cep"] ++ (findCityByCEP env (mapIndex m "cep")).events ++
          [Event.spanEnd "find-city-by-cep"] ++ [Event.spanStart "get-temperature-by-city"] ++
          (getTemperatureByCity env cityName).events ++
          [Event.spanEnd "get-temperature-by-city"] ∧
      ∃ rest, (getTemperatureByCity env cityName).events =
        Event.spanStart "call-weather-api" ::
          Event.setAttribute "call-weather-api" "city" cityName :: rest) := by
  refine ⟨?_, ?_, ?_, ?_, ?_⟩
  · intro hreach
    cases hdec : env.decodeBody body with
    | error e =>
      exfalso
      have hrun := run_decode_error env body e hdec
      rcases hreach with ⟨ev, hmem, _⟩ | hst
      · rw [hrun] at hmem
        simp at hmem
      · rw [hrun] at hst
        simp [httpError, StatusBadRequest] at hst
    | ok m =>
      cases hvalid : isValidCEP (mapIndex m "cep") with
      | false =>
        exfalso
        have hrun := run_invalid_cep env body m hdec hvalid
        rcases hreach with ⟨ev, hmem, _⟩ | hst
        · rw [hrun] at hmem
          simp at hmem
        · rw [hrun] at hst
          simp [httpError, StatusUnprocessableEntity] at hst
      | true =>
        cases h1 : (findCityByCEP env (mapIndex m "cep")).result with
        | error err =>
          exfalso
          obtain ⟨hne, _, hnone⟩ := run_stage1_error env body m err hdec hvalid h1
          rcases hreach with ⟨ev, hmem, hev⟩ | hst
          · rw [hnone ev hmem] at hev
            exact Bool.false_ne_true hev
          · exact hne hst
        | ok cityName =>
          exact ⟨m, cityName, rfl, hvalid, h1,
            (run_stage1_ok env body m cityName hdec hvalid h1).1,
            getTemperatureByCity_events_head env cityName⟩
  · intro e hdec
    rw [run_decode_error env body e hdec]
    exact ⟨rfl, rfl⟩
  · intro m hdec hbad
    rw [run_invalid_cep env body m hdec hbad]
    exact ⟨rfl, rfl⟩
  · intro m err hdec hvalid herr
    exact run_stage1_error env body m err hdec hvalid herr
  · intro m cityName hdec hvalid hok
    exact ⟨(run_stage1_ok env body m cityName hdec hvalid hok).1,
      getTemperatureByCity_events_head env cityName⟩

/-- C9 at four runs: a body that does not decode (400, no event), the
postal code `01310-100` (422, no event), the postal code `01310100` with a
resolver that reports an empty `localidade` (stage 1 fails: its events only),
and the same with a resolver that reports `Recife` (stage 2 runs once, on
`Recife`). -/
theorem C9_stage2_only_after_stage1_success_witness :
    (HandleWeatherRequest undecodable "not json").events = [] ∧
    (HandleWeatherRequest undecodable "not json").reply.status = 400 ∧
    (HandleWeatherRequest
      (scenario "01310-100" (.ok { Localidade := "Recife" }) 200
        (.ok { TempC := Float64.ofNat 25 }) false) "body").events = [] ∧
    (HandleWeatherRequest
      (scenario "01310100" (.ok { Localidade := "" }) 200 (.ok { TempC := Float64.ofNat 25 })
        false) "body").events =
      [Event.spanStart "find-city-by-cep", Event.spanStart "call-viacep-api",
        Event.setAttribute "call-viacep-api" "cep" "01310100",
        Event.httpGet "http://viacep.com.br/ws/01310100/json/",
        Event.spanEnd "call-viacep-api", Event.spanEnd "find-city-by-cep"] ∧
    (HandleWeatherRequest
      (scenario "01310100" (.ok { Localidade := "Recife" }) 200
        (.ok { TempC := Float64.ofNat 25 }) false) "body").events =
      [Event.spanStart "find-city-by-cep", Event.spanStart "call-viacep-api",
        Event.setAttribute "call-viacep-api" "cep" "01310100",
        Event.httpGet "http://viacep.com.br/ws/01310100/json/",
        Event.spanEnd "call-viacep-api", Event.spanEnd "find-city-by-cep",
        Event.spanStart "get-temperature-by-city", Event.spanStart "call-weather-api",
        Event.setAttribute "call-weather-api" "city" "Recife",
        Event.httpGet "http://api.weatherapi.com/v1/current.json?key=key&q=Recife",
        Event.spanEnd "call-weather-api", Event.spanEnd "get-temperature-by-city"] := by
  have h0 := (C9_stage2_only_after_stage1_success undecodable "not json").2.1 _ rfl
  have h1 := (C9_stage2_only_after_stage1_success
    (scenario "01310-100" (.ok { Localidade := "Recife" }) 200
      (.ok { TempC := Float64.ofNat 25 }) false) "body").2.2.1 [("cep", "01310-100")] rfl
      (by decide)
  have h2 := (C9_stage2_only_after_stage1_success
    (scenario "01310100" (.ok { Localidade := "" }) 200 (.ok { TempC := Float64.ofNat 25 })
      false) "body").2.2.2.1 [("cep", "01310100")] _ rfl (by decide) rfl
  have h3 := (C9_stage2_only_after_stage1_success
    (scenario "01310100" (.ok { Localidade := "Recife" }) 200
      (.ok { TempC := Float64.ofNat 25 }) false) "body").2.2.2.2 [("cep", "01310100")]
      "Recife" rfl (by decide) rfl
  exact ⟨h0.1, h0.2, h1.1, h2.2.1.trans (by decide), h3.1.trans (by decide)⟩

/-- The stages do not read the status code of an upstream response. -/
theorem findCityByCEP_withStatus (env : Env) (status : String → Nat → Nat) (cep : String) :
    findCityByCEP (env.withStatus status) cep = findCityByCEP env cep := by
  unfold findCityByCEP Env.withStatus
  cases h1 : env.newRequestErr (viaCEPURL cep) with
  | some err => simp [h1]
  | none =>
    cases h2 : env.clientDo (viaCEPURL cep) with
    | error err => simp [h1, h2]
    | ok resp => simp [h1, h2]

theorem getTemperatureByCity_withStatus (env : Env) (status : String → Nat → Nat)
    (cityName : String) :
    getTemperatureByCity (env.withStatus status) cityName = getTemperatureByCity env cityName := by
  unfold getTemperatureByCity Env.withStatus weatherURL
  cases h1 : env.newRequestErr
      ("http://api.weatherapi.com/v1/current.json?key=" ++ env.WEATHER_API_KEY ++ "&q=" ++
        env.QueryEscape cityName) with
  | some err => simp [h1]
  | none =>
    cases h2 : env.clientDo
        ("http://api.weatherapi.com/v1/current.json?key=" ++ env.WEATHER_API_KEY ++ "&q=" ++
          env.QueryEscape cityName) with
    | error err => simp [h1, h2]
    | ok resp => simp [h1, h2]

set_option maxRecDepth 100000 in
set_option exponentiation.threshold 3000 in
/-- The conversions of 0 degrees Celsius. -/
theorem conversions_of_zero (fused : Bool) :
    tempF fused (Float64.ofNat 0) = Float64.ofNat 32 ∧
    tempK (Float64.ofNat 0) = Float64.ofNat 273 := by
  cases fused <;> decide

set_option maxRecDepth 100000 in
/-- The conversions of 25 degrees Celsius. -/
theorem conversions_of_25 (fused : Bool) :
    tempF fused (Float64.ofNat 25) = Float64.ofNat 77 ∧
    tempK (Float64.ofNat 25) = Float64.ofNat 298 := by
  cases fused <;> decide

set_option maxRecDepth 100000 in
set_option exponentiation.threshold 3000 in
/-- The conversions of the largest finite `float64`: the product with `1.8`
overflows. -/
theorem conversions_of_maxFloat64 (fused : Bool) :
    tempF fused Float64.maxFloat64 = Float64.inf false ∧
    tempK Float64.maxFloat64 = Float64.maxFloat64 := by
  cases fused <;> decide

/-- The run of the handler when the postal code `01310100` resolves to
`Recife` and the weather provider's body decodes to the temperature `c`,
whatever the status of its response. -/
theorem run_of_scenario (weatherStatus : Nat) (c : Float64) (fused : Bool) :
    HandleWeatherRequest
      (scenario "01310100" (.ok { Localidade := "Recife" }) weatherStatus (.ok { TempC := c })
        fused) "body" =
      { events :=
          [Event.spanStart "find-city-by-cep", Event.spanStart "call-viacep-api",
            Event.setAttribute "call-viacep-api" "cep" "01310100",
            Event.httpGet "http://viacep.com.br/ws/01310100/json/",
            Event.spanEnd "call-viacep-api", Event.spanEnd "find-city-by-cep",
            Event.spanStart "get-temperature-by-city", Event.spanStart "call-weather-api",
            Event.setAttribute "call-weather-api" "city" "Recife",
            Event.httpGet "http://api.weatherapi.com/v1/current.json?key=key&q=Recife",
            Event.spanEnd "call-weather-api", Event.spanEnd "get-temperature-by-city"],
        reply :=
          { status := 200, contentType := "application/json",
            body := encode
              { City := "Recife", TempC := c, TempF := tempF fused c, TempK := tempK c } } } := by
  rfl

/-- C8 (as stated) fails: the postal code resolves to `Recife`, the weather
provider answers 401 with a JSON object that has no field `current`, which
decodes to the zero temperature, and `HandleWeatherRequest` answers 200 with
`temp_C` 0, `temp_F` 32 and `temp_K` 273. -/
theorem C8_non_2xx_weather_counterexample :
    (scenario "01310100" (.ok { Localidade := "Recife" }) 401
        (.ok { TempC := Float64.ofNat 0 }) false).clientDo
      "http://api.weatherapi.com/v1/current.json?key=key&q=Recife" =
      .ok { StatusCode := 401, Body := "weather body" } ∧
    HandleWeatherRequest
      (scenario "01310100" (.ok { Localidade := "Recife" }) 401
        (.ok { TempC := Float64.ofNat 0 }) false) "body" =
      { events :=
          [Event.spanStart "find-city-by-cep", Event.spanStart "call-viacep-api",
            Event.setAttribute "call-viacep-api" "cep" "01310100",
            Event.httpGet "http://viacep.com.br/ws/01310100/json/",
            Event.spanEnd "call-viacep-api", Event.spanEnd "find-city-by-cep",
            Event.spanStart "get-temperature-by-city", Event.spanStart "call-weather-api",
            Event.setAttribute "call-weather-api" "city" "Recife",
            Event.httpGet "http://api.weatherapi.com/v1/current.json?key=key&q=Recife",
            Event.spanEnd "call-weather-api", Event.spanEnd "get-temperature-by-city"],
        reply :=
          { status := 200, contentType := "application/json",
            body := .json
              { City := "Recife", TempC := Float64.ofNat 0, TempF := Float64.ofNat 32,
                TempK := Float64.ofNat 273 } } } := by
  constructor
  · rfl
  · rw [run_of_scenario, (conversions_of_zero false).1, (conversions_of_zero false).2]
    rfl

/-- C8 (amended): in hop 2 the status code of an upstream response is never
read: replacing the status codes of the upstream responses by any others
leaves the whole run of `HandleWeatherRequest` unchanged. A stage fails on an
upstream answer only through its body: when the body of the weather
provider's response does not decode, whatever its status, the handler answers
500 with the text of the decode error, and so it does when the body of the
postal-code resolver's response does not decode. -/
theorem C8_status_code_never_read (env : Env) (status : String → Nat → Nat) (body : String) :
    HandleWeatherRequest (env.withStatus status) body = HandleWeatherRequest env body ∧
    (∀ m cityName resp err,
      env.decodeBody body = .ok m →
      isValidCEP (mapIndex m "cep") = true →
      (findCityByCEP env (mapIndex m "cep")).result = .ok cityName →
      env.newRequestErr (weatherURL env cityName) = none →
      env.clientDo (weatherURL env cityName) = .ok resp →
      env.decodeWeather resp.Body = .error err →
      (HandleWeatherRequest env body).reply = httpError err.Error StatusInternalServerError) ∧
    (∀ m resp err,
      env.decodeBody body = .ok m →
      isValidCEP (mapIndex m "cep") = true →
      env.newRequestErr (viaCEPURL (mapIndex m "cep")) = none →
      env.clientDo (viaCEPURL (mapIndex m "cep")) = .ok resp →
      env.decodeViaCEP resp.Body = .error err →
      err.Error ≠ "can not find zipcode" →
      (HandleWeatherRequest env body).reply = httpError err.Error StatusInternalServerError) := by
  refine ⟨?_, ?_, ?_⟩
  · have hd : (env.withStatus status).decodeBody = env.decodeBody := rfl
    have hf : (env.withStatus status).fused = env.fused := rfl
    unfold HandleWeatherRequest
    simp only [findCityByCEP_withStatus, getTemperatureByCity_withStatus, hd, hf]
  · intro m cityName resp err hdec hvalid h1 hreq hdo hw
    have h2 : (getTemperatureByCity env cityName).result = .error err := by
      simp [getTemperatureByCity, hreq, hdo, hw]
    simp [HandleWeatherRequest, hdec, hvalid, h1, h2]
  · intro m resp err hdec hvalid hreq hdo hv hne
    have h1 : (findCityByCEP env (mapIndex m "cep")).result = .error err := by
      simp [findCityByCEP, hreq, hdo, hv]
    simp [HandleWeatherRequest, hdec, hvalid, h1, hne]

/-- C8 (amended) at a weather provider that answers 503 with a body that is
not JSON: the reply is 500, as it is when the same body comes with status
200. -/
theorem C8_status_code_never_read_witness :
    (HandleWeatherRequest
      (scenario "01310100" (.ok { Localidade := "Recife" }) 503
        (.error (.other "*json.SyntaxError" "invalid character '<' looking for beginning of value"))
        false) "body").reply.status = 500 ∧
    HandleWeatherRequest
      ((scenario "01310100" (.ok { Localidade := "Recife" }) 503
        (.error (.other "*json.SyntaxError" "invalid character '<' looking for beginning of value"))
        false).withStatus (fun _ _ => 200)) "body" =
    HandleWeatherRequest
      (scenario "01310100" (.ok { Localidade := "Recife" }) 503
        (.error (.other "*json.SyntaxError" "invalid character '<' looking for beginning of value"))
        false) "body" := by
  have h := C8_status_code_never_read
    (scenario "01310100" (.ok { Localidade := "Recife" }) 503
      (.error (.other "*json.SyntaxError" "invalid character '<' looking for beginning of value"))
      false) (fun _ _ => 200) "body"
  refine ⟨?_, h.1⟩
  rw [h.2.1 [("cep", "01310100")] "Recife" { StatusCode := 503, Body := "weather body" } _
    rfl (by decide) rfl rfl rfl rfl]
  rfl

/-- A finite Fahrenheit value comes from a finite Celsius value. -/
theorem isFinite_of_tempF (fused : Bool) (c : Float64)
    (h : (tempF fused c).isFinite = true) : c.isFinite = true := by
  cases c with
  | finite s m e => rfl
  | inf s =>
    exfalso
    cases fused <;>
      simp [tempF, Float64.fma, Float64.mul, Float64.add, Float64.const1_8, Float64.ofNat_32,
        Float64.isFinite] at h
  | nan =>
    exfalso
    cases fused <;>
      simp [tempF, Float64.fma, Float64.mul, Float64.add, Float64.const1_8, Float64.ofNat_32,
        Float64.isFinite] at h

/-- The Kelvin value of a stored finite Celsius value is finite. -/
theorem tempK_isFinite (c : Float64) (hS : c.isStored = true) (hC : c.isFinite = true) :
    (tempK c).isFinite = true := by
  cases c with
  | finite s m e =>
    simp only [Float64.isStored, Float64.maxExp, Bool.and_eq_true, decide_eq_true_eq] at hS
    exact Float64.add_273_isFinite s m e hS.1.1.1 hS.1.2
  | inf s => simp [Float64.isFinite] at hC
  | nan => simp [Float64.isFinite] at hC

/-- C10 (as stated) fails: the weather provider reports the temperature
`1.7976931348623157e308`, the largest finite `float64`; stage 2 returns it,
`tempC*1.8 + 32` overflows to `+Inf`, the JSON encoder refuses the value, and
the reply is status 200 with no body: it carries no `temp_F`. -/
theorem C10_overflow_counterexample :
    (getTemperatureByCity
      (scenario "01310100" (.ok { Localidade := "Recife" }) 200
        (.ok { TempC := Float64.maxFloat64 }) false) "Recife").result =
      .ok Float64.maxFloat64 ∧
    Float64.maxFloat64.isStored = true ∧
    Float64.maxFloat64.isFinite = true ∧
    tempF false Float64.maxFloat64 = Float64.inf false ∧
    (HandleWeatherRequest
      (scenario "01310100" (.ok { Localidade := "Recife" }) 200
        (.ok { TempC := Float64.maxFloat64 }) false) "body").reply =
      { status := 200, contentType := "application/json", body := Body.empty } := by
  refine ⟨rfl, by decide, rfl, (conversions_of_maxFloat64 false).1, ?_⟩
  rw [run_of_scenario, (conversions_of_maxFloat64 false).1, (conversions_of_maxFloat64 false).2]
  rfl

/-- C10 (amended): for every `float64` temperature `c` returned by stage 2
for which `c*1.8 + 32` is finite, that is, does not overflow, the reply of
`HandleWeatherRequest` is 200 with the JSON object of the city, `temp_C`
equal to `c`, `temp_F` equal to `c*1.8 + 32` (rounded after each operation,
or once when the compiler fuses the expression) and `temp_K` equal to
`c + 273`; for `c` equal to 25 these are exactly 77 and 298, the offset
being 273 and not 273.15. -/
theorem C10_conversions_in_success_reply (env : Env) (body : String)
    (m : List (String × String)) (cityName : String) (c : Float64)
    (hdec : env.decodeBody body = .ok m)
    (hvalid : isValidCEP (mapIndex m "cep") = true)
    (h1 : (findCityByCEP env (mapIndex m "cep")).result = .ok cityName)
    (h2 : (getTemperatureByCity env cityName).result = .ok c)
    (hS : c.isStored = true)
    (hF : (tempF env.fused c).isFinite = true) :
    (HandleWeatherRequest env body).reply =
      { status := 200, contentType := "application/json",
        body := .json
          { City := cityName, TempC := c, TempF := tempF env.fused c, TempK := tempK c } } ∧
    tempF env.fused c =
      (if env.fused then Float64.fma c Float64.const1_8 (Float64.ofNat 32)
       else Float64.add (Float64.mul c Float64.const1_8) (Float64.ofNat 32)) ∧
    tempK c = Float64.add c (Float64.ofNat 273) ∧
    (∀ fused, tempF fused (Float64.ofNat 25) = Float64.ofNat 77) ∧
    tempK (Float64.ofNat 25) = Float64.ofNat 298 ∧
    (Float64.ofNat 25).toRat = some 25 ∧
    (Float64.ofNat 77).toRat = some 77 ∧
    (Float64.ofNat 298).toRat = some 298 := by
  have hC : c.isFinite = true := isFinite_of_tempF env.fused c hF
  have hK : (tempK c).isFinite = true := tempK_isFinite c hS hC
  refine ⟨?_, rfl, rfl, fun fused => (conversions_of_25 fused).1, (conversions_of_25 true).2,
    ?_, ?_, ?_⟩
  · simp [HandleWeatherRequest, hdec, hvalid, h1, h2, encode, hC, hF, hK, StatusOK]
  · have : Float64.ofNat 25 = Float64.finite false (25 * 2 ^ 48) (-48) := by decide
    rw [this]
    simp only [Float64.toRat]
    norm_num
  · have : Float64.ofNat 77 = Float64.finite false (77 * 2 ^ 46) (-46) := by decide
    rw [this]
    simp only [Float64.toRat]
    norm_num
  · have : Float64.ofNat 298 = Float64.finite false (298 * 2 ^ 44) (-44) := by decide
    rw [this]
    simp only [Float64.toRat]
    norm_num

/-- C10 (amended) at 25 degrees Celsius in `Recife`: the reply carries 25,
77 and 298. -/
theorem C10_conversions_in_success_reply_witness :
    (Float64.ofNat 25).isStored = true ∧
    (HandleWeatherRequest
      (scenario "01310100" (.ok { Localidade := "Recife" }) 200
        (.ok { TempC := Float64.ofNat 25 }) false) "body").reply =
      { status := 200, contentType := "application/json",
        body := .json
          { City := "Recife", TempC := Float64.ofNat 25, TempF := Float64.ofNat 77,
            TempK := Float64.ofNat 298 } } := by
  have h := (C10_conversions_in_success_reply
    (scenario "01310100" (.ok { Localidade := "Recife" }) 200
      (.ok { TempC := Float64.ofNat 25 }) false) "body" [("cep", "01310100")] "Recife"
    (Float64.ofNat 25) rfl (by decide) rfl rfl (by decide)
    (by rw [(conversions_of_25 _).1]; rfl)).1
  refine ⟨by decide, ?_⟩
  rw [h, (conversions_of_25 _).1, (conversions_of_25 false).2]

end ServiceB

end OTEL
